import Mathlib

/-!
Verification development for a collection of election-data synchronization
scripts.  Each script fetches items from a source HTTP API and reconciles
them into a record store (create / update / skip / fail per item).

The embedding is shallow: JavaScript values read or written by the scripts
are modelled by the inductive type Value (numbers as integers, since the
scripts only ever compare them with strict equality), JS objects whose shape
the scripts rely on become Lean structures, the record store becomes an
explicit state threaded through the reconcilers, and fallible store or HTTP
calls are modelled by Except together with injected-failure fields on the
store state.
-/

namespace ElectionSync

/-- Model of the JavaScript values that flow through the sync scripts.
Numbers are modelled as integers: the scripts never do arithmetic on the
values they store, they only compare them with strict (type-and-value)
equality, which decidable equality on this type models. -/
inductive Value where
  | vstr : String → Value
  | vint : Int → Value
  | vbool : Bool → Value
  | vnull : Value
  | vundef : Value
deriving DecidableEq

/-- Outcome of reconciling one source item. -/
inductive Verdict where
  | created
  | updated
  | skipped
  | failed
deriving DecidableEq

/-- Run counters, as accumulated by the run drivers. -/
structure Stats where
  created : Nat
  updated : Nat
  skipped : Nat
  failed : Nat
deriving DecidableEq

/-- The four-way per-item tally used by the drivers that track all four
verdicts (partylist, candidates, areas, referendum, score, ...). -/
def Stats.bump (s : Stats) : Verdict → Stats
  | Verdict.created => { s with created := s.created + 1 }
  | Verdict.updated => { s with updated := s.updated + 1 }
  | Verdict.skipped => { s with skipped := s.skipped + 1 }
  | Verdict.failed => { s with failed := s.failed + 1 }

/-! JavaScript Map model, for the relation caches.  Map.set replaces the
binding when the key is present and appends otherwise; Map.get returns the
binding or undefined (here: none). -/

/-- A JS Map from natural keys to store ids, as an association list. -/
abbrev JsMap := List (Value × String)

/-- JS Map.set: replace an existing binding in place, else append. -/
def mapSet (m : JsMap) (k : Value) (v : String) : JsMap :=
  if m.any (fun p => p.1 = k) then
    m.map (fun p => if p.1 = k then (k, v) else p)
  else
    m ++ [(k, v)]

/-- JS Map.get: the value of the binding, or none (undefined). -/
def mapGet (m : JsMap) (k : Value) : Option String :=
  (m.find? (fun p => p.1 = k)).map (fun p => p.2)

/-- A record of the parties (or provinces, areas) collection as the relation
caches read it: its natural key and its store-assigned id. -/
structure PartyRecord where
  name : Value
  id : String
deriving DecidableEq

/-- Cache contents built from a successfully loaded full list, mirroring the
for-of loop over getFullList that calls cache.set(record.name, record.id). -/
def buildPartyCache (records : List PartyRecord) : JsMap :=
  records.foldl (fun m r => mapSet m r.name r.id) []

/-- The cache contents that a load attempt leaves behind: the populated map
when the full-list call succeeds, the empty map when it fails (the catch
block logs and leaves the just-created empty Map in place). -/
def effCache (partiesLoad : Except String (List PartyRecord)) : JsMap :=
  match partiesLoad with
  | Except.ok records => buildPartyCache records
  | Except.error _ => []

/-- getPartyId from sync-partylist.js (the same shape is repeated in the
candidates, areas and partylist-results scripts).  State-passing model of
the lazily initialised module-level partyCache: on first call (cache none)
the full list is loaded inside a try/catch — a failure is caught and the
cache stays empty — and the map is consulted; afterwards the map is only
consulted.  The function is total: resolution never throws. -/
def getPartyId (partiesLoad : Except String (List PartyRecord))
    (cache : Option JsMap) (partyName : Value) : Option String × Option JsMap :=
  match cache with
  | some m => (mapGet m partyName, some m)
  | none =>
      let m := effCache partiesLoad
      (mapGet m partyName, some m)

/-! Authenticator (src/pb.js). -/

/-- The two credential-exchange network calls authenticate can issue. -/
inductive AuthCall where
  | userAuth
  | adminAuth
deriving DecidableEq

/-- authenticate from src/pb.js.  The process-wide session is modelled as
Option String (some token when pb.authStore.isValid).  The outcomes of the
two possible credential exchanges are inputs: Except.ok carries the session
obtained, Except.error the error message.  Returns the result (the thrown
error wraps the message of the admin attempt, which is the error the outer
catch sees), the session state afterwards, and the list of network calls
issued. -/
def authenticate (session : Option String)
    (userR adminR : Except String String) :
    Except String String × Option String × List AuthCall :=
  match session with
  | some s => (Except.ok s, some s, [])
  | none =>
      match userR with
      | Except.ok s => (Except.ok s, some s, [AuthCall.userAuth])
      | Except.error _ =>
          match adminR with
          | Except.ok s =>
              (Except.ok s, some s, [AuthCall.userAuth, AuthCall.adminAuth])
          | Except.error m =>
              (Except.error ("Authentication Failed: " ++ m), none,
                [AuthCall.userAuth, AuthCall.adminAuth])

/-! Party list sync (src/sync-partylist.js). -/

namespace Partylist

/-- The fields of a source party-list item that the script reads.  The field
partyName models the optional-chained access item.party?.name (vundef when
the party object or its name is absent). -/
structure Item where
  name : Value
  number : Value
  title : Value
  firstName : Value
  lastName : Value
  pmCandidateRank : Value
  active : Value
  partyName : Value
deriving DecidableEq

/-- The allow-listed payload the script builds (the object literal in
syncItem). -/
structure Payload where
  name : Value
  number : Value
  title : Value
  firstName : Value
  lastName : Value
  pmCandidateRank : Value
  active : Value
  party : Value
deriving DecidableEq

/-- A resolved relation id as it is placed into the payload: the string id,
or undefined when resolution returned no binding. -/
def optValue : Option String → Value
  | some s => Value.vstr s
  | none => Value.vundef

/-- The payload object built in syncItem from the item and the resolved
party id. -/
def buildPayload (item : Item) (partyId : Option String) : Payload :=
  { name := item.name
    number := item.number
    title := item.title
    firstName := item.firstName
    lastName := item.lastName
    pmCandidateRank := item.pmCandidateRank
    active := item.active
    party := optValue partyId }

/-- A stored record of the partylist collection: the store-assigned id, the
fields this script writes, and the remaining fields of the record (owned by
nobody in this script), kept opaque. -/
structure Rec where
  id : Nat
  name : Value
  number : Value
  title : Value
  firstName : Value
  lastName : Value
  pmCandidateRank : Value
  active : Value
  party : Value
  extra : List (String × Value)
deriving DecidableEq

/-- The partylist collection state.  lookupErr injects a failure of the
getFirstListItem call (carrying the HTTP status the thrown error would
have); writeErr injects a failure of the create/update calls. -/
structure Store where
  recs : List Rec
  nextId : Nat
  lookupErr : Option Nat
  writeErr : Bool
deriving DecidableEq

/-- getFirstListItem with the name equality filter: the first stored record
whose name field equals the given value; a 404-status error when there is
none; the injected error when the call itself fails. -/
def lookupByName (st : Store) (nm : Value) : Except Nat Rec :=
  match st.lookupErr with
  | some s => Except.error s
  | none =>
      match st.recs.find? (fun r => r.name = nm) with
      | some r => Except.ok r
      | none => Except.error 404

/-- The isChanged comparison of syncItem: strict inequality over the seven
fields this script diffs (name is not diffed — it is the lookup key). -/
def isChanged (r : Rec) (p : Payload) : Bool :=
  r.number != p.number ||
  r.title != p.title ||
  r.firstName != p.firstName ||
  r.lastName != p.lastName ||
  r.pmCandidateRank != p.pmCandidateRank ||
  r.active != p.active ||
  r.party != p.party

/-- The effect of update(existing.id, payload) on the matched record: every
payload field is overwritten, the id and the fields outside the payload are
untouched. -/
def applyPayload (r : Rec) (p : Payload) : Rec :=
  { r with
    name := p.name
    number := p.number
    title := p.title
    firstName := p.firstName
    lastName := p.lastName
    pmCandidateRank := p.pmCandidateRank
    active := p.active
    party := p.party }

/-- The record produced by create(payload). -/
def newRec (id : Nat) (p : Payload) : Rec :=
  { id := id
    name := p.name
    number := p.number
    title := p.title
    firstName := p.firstName
    lastName := p.lastName
    pmCandidateRank := p.pmCandidateRank
    active := p.active
    party := p.party
    extra := [] }

/-- create(payload): append a fresh record holding exactly the payload. -/
def create (st : Store) (p : Payload) : Store :=
  { st with recs := st.recs ++ [newRec st.nextId p], nextId := st.nextId + 1 }

/-- update(id, payload): overwrite the payload fields of the record with the
given store id. -/
def update (st : Store) (rid : Nat) (p : Payload) : Store :=
  { st with recs := st.recs.map (fun r => if r.id = rid then applyPayload r p else r) }

/-- syncItem of sync-partylist.js.  Resolves the party relation through the
cache, builds the payload, looks the record up by name (a 404 is the
expected not-found path, any other lookup error is rethrown to the outer
catch and becomes a failed verdict), then updates when an owned field
differs, skips otherwise, creates when absent; any create/update failure is
caught and yields failed. -/
def syncItem (partiesLoad : Except String (List PartyRecord))
    (cache : Option JsMap) (st : Store) (item : Item) :
    Verdict × Store × Option JsMap :=
  let pr := getPartyId partiesLoad cache item.partyName
  let p := buildPayload item pr.1
  match lookupByName st item.name with
  | Except.error s =>
      if s = 404 then
        if st.writeErr then (Verdict.failed, st, pr.2)
        else (Verdict.created, create st p, pr.2)
      else (Verdict.failed, st, pr.2)
  | Except.ok r =>
      if isChanged r p then
        if st.writeErr then (Verdict.failed, st, pr.2)
        else (Verdict.updated, update st r.id p, pr.2)
      else (Verdict.skipped, st, pr.2)

/-- The per-item loop of main over one batch of items: reconcile each item
in order, bump the four counters by its verdict, thread store and cache. -/
def runFrom (partiesLoad : Except String (List PartyRecord)) :
    Stats → Store → Option JsMap → List Item → Stats × Store × Option JsMap
  | stats, st, c, [] => (stats, st, c)
  | stats, st, c, item :: rest =>
      let r := syncItem partiesLoad c st item
      runFrom partiesLoad (stats.bump r.1) r.2.1 r.2.2 rest

/-- One full reconciliation pass of a freshly started process (zero
counters, unloaded cache) over a list of items. -/
def run (partiesLoad : Except String (List PartyRecord))
    (st : Store) (items : List Item) : Stats × Store × Option JsMap :=
  runFrom partiesLoad ⟨0, 0, 0, 0⟩ st none items

/-- The truthiness guard of the partylist driver on the reported totalPages
value (pagination.totalPages, absent modelled as none; the number 0 is
falsy in JavaScript). -/
def tpTruthy : Option Int → Bool
  | none => false
  | some t => !(t = 0)

/-- The stop-after-processing condition of the partylist pagination loop:
if (pagination.totalPages and page >= pagination.totalPages) hasMore =
false. -/
def stopAfter (page : Int) (tp : Option Int) : Bool :=
  match tp with
  | none => false
  | some t => if t = 0 then false else decide (page ≥ t)

/-- One turn of the partylist pagination loop, reduced to its control data:
given the current page number, the length of the fetched item list and the
reported totalPages, either stop (none) or continue at the next page
number.  The empty-page check runs first and breaks before any item is
processed. -/
def loopNext (page : Int) (itemsLen : Nat) (tp : Option Int) : Option Int :=
  if itemsLen = 0 then none
  else if stopAfter page tp then none
  else some (page + 1)

/-- The page numbers the partylist driver processes, for a source modelled
as a pure function from page number to (items, reported totalPages); fuel
bounds the recursion (the JS loop has no bound of its own). -/
def pagesTrace (fetch : Int → List Item × Option Int) : Nat → Int → List Int
  | 0, _ => []
  | fuel + 1, page =>
      let pg := fetch page
      if pg.1.length = 0 then []
      else
        page :: (if stopAfter page pg.2 then [] else pagesTrace fetch fuel (page + 1))

/-- The page numbers processed by a run of main, which starts at page 1. -/
def pagesMain (fetch : Int → List Item × Option Int) (fuel : Nat) : List Int :=
  pagesTrace fetch fuel 1

/-- The pagination loop of main with fallible fetches: a fetch error is
thrown out of the loop; none models running out of fuel (the JS loop could
iterate further). -/
def mainLoop (fetch : Int → Except String (List Item × Option Int))
    (partiesLoad : Except String (List PartyRecord)) :
    Nat → Int → Stats → Store → Option JsMap →
    Option (Except String (Stats × Store))
  | 0, _, _, _, _ => none
  | fuel + 1, page, stats, st, c =>
      match fetch page with
      | Except.error e => some (Except.error e)
      | Except.ok pg =>
          if pg.1.length = 0 then some (Except.ok (stats, st))
          else
            let r := runFrom partiesLoad stats st c pg.1
            if stopAfter page pg.2 then some (Except.ok (r.1, r.2.1))
            else mainLoop fetch partiesLoad fuel (page + 1) r.1 r.2.1 r.2.2

/-- main of sync-partylist.js: authenticate, run the pagination loop from
page 1, and map any thrown error to exit status 1 (the catch block calls
process.exit(1)); completion — failed items included — exits 0.  The result
pairs the exit status with the final stats and store when the run
completed. -/
def main (authR : Except String String)
    (fetch : Int → Except String (List Item × Option Int))
    (partiesLoad : Except String (List PartyRecord))
    (fuel : Nat) (st : Store) : Option (Nat × Option (Stats × Store)) :=
  match authR with
  | Except.error _ => some (1, none)
  | Except.ok _ =>
      match mainLoop fetch partiesLoad fuel 1 ⟨0, 0, 0, 0⟩ st none with
      | none => none
      | some (Except.error _) => some (1, none)
      | some (Except.ok r) => some (0, some r)

end Partylist

/-! Parties master-data sync (the parties script, collection 'parties'). -/

namespace Parties

/-- The fields of a source party item the script reads. -/
structure Item where
  name : Value
  code : Value
  abbreviation : Value
  color : Value
  logoUrl : Value
  totalCandidates : Value
deriving DecidableEq

/-- The allow-listed payload of the parties script. -/
structure Payload where
  name : Value
  code : Value
  abbreviation : Value
  color : Value
  logoUrl : Value
  totalCandidates : Value
deriving DecidableEq

/-- The payload object literal built at the top of syncItem. -/
def buildPayload (item : Item) : Payload :=
  { name := item.name
    code := item.code
    abbreviation := item.abbreviation
    color := item.color
    logoUrl := item.logoUrl
    totalCandidates := item.totalCandidates }

/-- The payload as the JS object it is: its keys in literal order.  The
object literal has exactly these six keys (fields missing on the item are
present with value undefined). -/
def payloadObj (p : Payload) : List (String × Value) :=
  [("name", p.name), ("code", p.code), ("abbreviation", p.abbreviation),
   ("color", p.color), ("logoUrl", p.logoUrl),
   ("totalCandidates", p.totalCandidates)]

/-- A stored record of the parties collection. -/
structure Rec where
  id : Nat
  name : Value
  code : Value
  abbreviation : Value
  color : Value
  logoUrl : Value
  totalCandidates : Value
  extra : List (String × Value)
deriving DecidableEq

/-- The parties collection state, with injected-failure fields as in the
partylist model. -/
structure Store where
  recs : List Rec
  nextId : Nat
  lookupErr : Option Nat
  writeErr : Bool
deriving DecidableEq

/-- getFirstListItem with the name equality filter. -/
def lookupByName (st : Store) (nm : Value) : Except Nat Rec :=
  match st.lookupErr with
  | some s => Except.error s
  | none =>
      match st.recs.find? (fun r => r.name = nm) with
      | some r => Except.ok r
      | none => Except.error 404

/-- Effect of update(existingId, payload). -/
def applyPayload (r : Rec) (p : Payload) : Rec :=
  { r with
    name := p.name
    code := p.code
    abbreviation := p.abbreviation
    color := p.color
    logoUrl := p.logoUrl
    totalCandidates := p.totalCandidates }

/-- The record produced by create(payload). -/
def newRec (id : Nat) (p : Payload) : Rec :=
  { id := id
    name := p.name
    code := p.code
    abbreviation := p.abbreviation
    color := p.color
    logoUrl := p.logoUrl
    totalCandidates := p.totalCandidates
    extra := [] }

/-- create(payload). -/
def create (st : Store) (p : Payload) : Store :=
  { st with recs := st.recs ++ [newRec st.nextId p], nextId := st.nextId + 1 }

/-- update(id, payload). -/
def update (st : Store) (rid : Nat) (p : Payload) : Store :=
  { st with recs := st.recs.map (fun r => if r.id = rid then applyPayload r p else r) }

/-- syncItem of the parties script.  Unlike the other reconcilers it has no
change detection: when a record with the item's name exists it always calls
update and returns updated; it never returns skipped. -/
def syncItem (st : Store) (item : Item) : Verdict × Store :=
  let p := buildPayload item
  match lookupByName st item.name with
  | Except.error s =>
      if s = 404 then
        if st.writeErr then (Verdict.failed, st)
        else (Verdict.created, create st p)
      else (Verdict.failed, st)
  | Except.ok r =>
      if st.writeErr then (Verdict.failed, st)
      else (Verdict.updated, update st r.id p)

/-- The stats object of the parties script has only three counters; its
tally counts created and updated and lumps everything else into failed. -/
structure PStats where
  created : Nat
  updated : Nat
  failed : Nat
deriving DecidableEq

/-- The three-way tally of the parties main loop. -/
def tally (s : PStats) : Verdict → PStats
  | Verdict.created => { s with created := s.created + 1 }
  | Verdict.updated => { s with updated := s.updated + 1 }
  | _ => { s with failed := s.failed + 1 }

/-- The per-item loop of main over the fetched items. -/
def runFrom : PStats → Store → List Item → PStats × Store
  | stats, st, [] => (stats, st)
  | stats, st, item :: rest =>
      let r := syncItem st item
      runFrom (tally stats r.1) r.2 rest

/-- One full run over a fetched list, starting from zero counters. -/
def run (st : Store) (items : List Item) : PStats × Store :=
  runFrom ⟨0, 0, 0⟩ st items

/-- main of the parties script: authenticate, fetch the whole list, sync
every item; the catch block logs and calls process.exit(1), so any thrown
error exits 1 and completion exits 0. -/
def main (authR : Except String String)
    (fetchR : Except String (List Item)) (st : Store) :
    Nat × Option (PStats × Store) :=
  match authR with
  | Except.error _ => (1, none)
  | Except.ok _ =>
      match fetchR with
      | Except.error _ => (1, none)
      | Except.ok items =>
          let r := run st items
          (0, some r)

end Parties

/-! Referendum sync (src/masterdata/sync-referendum.js). -/

namespace Referendum

/-- One entry of item.options. -/
structure Opt where
  optionCode : Value
  totalVotes : Value
  percentage : Value
  rank : Value
deriving DecidableEq

/-- The fields of a source referendum question the script reads. -/
structure Item where
  questionNumber : Value
  questionText : Value
  options : List Opt
  goodVotes : Value
  totalVotes : Value
  invalidVotes : Value
  noVotes : Value
deriving DecidableEq

/-- The twelve-field allow-listed payload of the referendum script. -/
structure Payload where
  number : Value
  title : Value
  agreeTotalVotes : Value
  agreePercentage : Value
  agreeRank : Value
  disagreeTotalVotes : Value
  disagreePercentage : Value
  disagreeRank : Value
  goodVotes : Value
  totalVotes : Value
  invalidVotes : Value
  noVotes : Value
deriving DecidableEq

/-- options.find on the optionCode, as in syncItem. -/
def findOption (os : List Opt) (code : String) : Option Opt :=
  os.find? (fun o => o.optionCode = Value.vstr code)

/-- A field taken from an option when it was found, 0 otherwise (the
ternary expressions building the payload). -/
def optField (o : Option Opt) (f : Opt → Value) : Value :=
  match o with
  | some opt => f opt
  | none => Value.vint 0

/-- The payload built in syncItem. -/
def buildPayload (item : Item) : Payload :=
  let agree := findOption item.options "agree"
  let disagree := findOption item.options "disagree"
  { number := item.questionNumber
    title := item.questionText
    agreeTotalVotes := optField agree (fun o => o.totalVotes)
    agreePercentage := optField agree (fun o => o.percentage)
    agreeRank := optField agree (fun o => o.rank)
    disagreeTotalVotes := optField disagree (fun o => o.totalVotes)
    disagreePercentage := optField disagree (fun o => o.percentage)
    disagreeRank := optField disagree (fun o => o.rank)
    goodVotes := item.goodVotes
    totalVotes := item.totalVotes
    invalidVotes := item.invalidVotes
    noVotes := item.noVotes }

/-- A stored record of the referendum collection. -/
structure Rec where
  id : Nat
  number : Value
  title : Value
  agreeTotalVotes : Value
  agreePercentage : Value
  agreeRank : Value
  disagreeTotalVotes : Value
  disagreePercentage : Value
  disagreeRank : Value
  goodVotes : Value
  totalVotes : Value
  invalidVotes : Value
  noVotes : Value
  extra : List (String × Value)
deriving DecidableEq

/-- The referendum collection state. -/
structure Store where
  recs : List Rec
  nextId : Nat
  lookupErr : Option Nat
  writeErr : Bool
deriving DecidableEq

/-- getFirstListItem with the number equality filter. -/
def lookupByNumber (st : Store) (n : Value) : Except Nat Rec :=
  match st.lookupErr with
  | some s => Except.error s
  | none =>
      match st.recs.find? (fun r => r.number = n) with
      | some r => Except.ok r
      | none => Except.error 404

/-- The isChanged comparison: the eight fields this script diffs.  Note the
payload also carries number, goodVotes, invalidVotes and noVotes, which are
not diffed here. -/
def isChanged (r : Rec) (p : Payload) : Bool :=
  r.agreeTotalVotes != p.agreeTotalVotes ||
  r.agreePercentage != p.agreePercentage ||
  r.agreeRank != p.agreeRank ||
  r.disagreeTotalVotes != p.disagreeTotalVotes ||
  r.disagreePercentage != p.disagreePercentage ||
  r.disagreeRank != p.disagreeRank ||
  r.totalVotes != p.totalVotes ||
  r.title != p.title

/-- Effect of update(existing.id, payload): all twelve payload fields are
overwritten, id and the fields outside the payload are untouched. -/
def applyPayload (r : Rec) (p : Payload) : Rec :=
  { r with
    number := p.number
    title := p.title
    agreeTotalVotes := p.agreeTotalVotes
    agreePercentage := p.agreePercentage
    agreeRank := p.agreeRank
    disagreeTotalVotes := p.disagreeTotalVotes
    disagreePercentage := p.disagreePercentage
    disagreeRank := p.disagreeRank
    goodVotes := p.goodVotes
    totalVotes := p.totalVotes
    invalidVotes := p.invalidVotes
    noVotes := p.noVotes }

/-- The record produced by create(payload). -/
def newRec (id : Nat) (p : Payload) : Rec :=
  { id := id
    number := p.number
    title := p.title
    agreeTotalVotes := p.agreeTotalVotes
    agreePercentage := p.agreePercentage
    agreeRank := p.agreeRank
    disagreeTotalVotes := p.disagreeTotalVotes
    disagreePercentage := p.disagreePercentage
    disagreeRank := p.disagreeRank
    goodVotes := p.goodVotes
    totalVotes := p.totalVotes
    invalidVotes := p.invalidVotes
    noVotes := p.noVotes
    extra := [] }

/-- create(payload). -/
def create (st : Store) (p : Payload) : Store :=
  { st with recs := st.recs ++ [newRec st.nextId p], nextId := st.nextId + 1 }

/-- update(id, payload). -/
def update (st : Store) (rid : Nat) (p : Payload) : Store :=
  { st with recs := st.recs.map (fun r => if r.id = rid then applyPayload r p else r) }

/-- syncItem of sync-referendum.js: look up by question number (404 is the
expected not-found path, other lookup errors are rethrown and become
failed), diff the eight owned fields, update/skip/create; write errors are
caught and yield failed. -/
def syncItem (st : Store) (item : Item) : Verdict × Store :=
  let p := buildPayload item
  match lookupByNumber st item.questionNumber with
  | Except.error s =>
      if s = 404 then
        if st.writeErr then (Verdict.failed, st)
        else (Verdict.created, create st p)
      else (Verdict.failed, st)
  | Except.ok r =>
      if isChanged r p then
        if st.writeErr then (Verdict.failed, st)
        else (Verdict.updated, update st r.id p)
      else (Verdict.skipped, st)

/-- The per-item loop of main. -/
def runFrom : Stats → Store → List Item → Stats × Store
  | stats, st, [] => (stats, st)
  | stats, st, item :: rest =>
      let r := syncItem st item
      runFrom (stats.bump r.1) r.2 rest

/-- One full run over a fetched list. -/
def run (st : Store) (items : List Item) : Stats × Store :=
  runFrom ⟨0, 0, 0, 0⟩ st items

/-- main of sync-referendum.js.  Its catch block only logs the fatal error:
there is no process.exit(1) call, so the process exits 0 on authentication
or fetch failure just as on completion. -/
def main (authR : Except String String)
    (fetchR : Except String (List Item)) (st : Store) :
    Nat × Option (Stats × Store) :=
  match authR with
  | Except.error _ => (0, none)
  | Except.ok _ =>
      match fetchR with
      | Except.error _ => (0, none)
      | Except.ok items =>
          let r := run st items
          (0, some r)

end Referendum

/-! Candidate score sync (the update-only script against the candidates
collection). -/

namespace Score

/-- The fields of a source score item the script reads into its payload. -/
structure Item where
  name : Value
  totalVotes : Value
  rank : Value
  percentage : Value
deriving DecidableEq

/-- The four-field payload of the score script. -/
structure Payload where
  name : Value
  totalVotes : Value
  rank : Value
  percentage : Value
deriving DecidableEq

/-- The payload built in syncItem. -/
def buildPayload (item : Item) : Payload :=
  { name := item.name
    totalVotes := item.totalVotes
    rank := item.rank
    percentage := item.percentage }

/-- A stored candidate record as this script sees it: its id, the fields
this script writes, and everything else (the profile fields owned by the
static-profile script) kept opaque. -/
structure Rec where
  id : Nat
  name : Value
  totalVotes : Value
  rank : Value
  percentage : Value
  extra : List (String × Value)
deriving DecidableEq

/-- The candidates collection state as this script touches it. -/
structure Store where
  recs : List Rec
  nextId : Nat
  lookupErr : Option Nat
  writeErr : Bool
deriving DecidableEq

/-- getFirstListItem with the name equality filter. -/
def lookupByName (st : Store) (nm : Value) : Except Nat Rec :=
  match st.lookupErr with
  | some s => Except.error s
  | none =>
      match st.recs.find? (fun r => r.name = nm) with
      | some r => Except.ok r
      | none => Except.error 404

/-- The isChanged comparison: only the three score fields. -/
def isChanged (r : Rec) (p : Payload) : Bool :=
  r.totalVotes != p.totalVotes ||
  r.rank != p.rank ||
  r.percentage != p.percentage

/-- Effect of update(existing.id, payload). -/
def applyPayload (r : Rec) (p : Payload) : Rec :=
  { r with
    name := p.name
    totalVotes := p.totalVotes
    rank := p.rank
    percentage := p.percentage }

/-- update(id, payload). -/
def update (st : Store) (rid : Nat) (p : Payload) : Store :=
  { st with recs := st.recs.map (fun r => if r.id = rid then applyPayload r p else r) }

/-- syncItem of the score script: update-only.  When no record with the
item's name exists the item is skipped and nothing is written; the script
never creates. -/
def syncItem (st : Store) (item : Item) : Verdict × Store :=
  let p := buildPayload item
  match lookupByName st item.name with
  | Except.error s =>
      if s = 404 then (Verdict.skipped, st)
      else (Verdict.failed, st)
  | Except.ok r =>
      if isChanged r p then
        if st.writeErr then (Verdict.failed, st)
        else (Verdict.updated, update st r.id p)
      else (Verdict.skipped, st)

end Score

/-! Realtime province statistics sync (the update-only script against the
provinces collection, no process.exit(1) in its catch). -/

namespace ProvinceStats

/-- The fields of a source province-statistics item the script reads.  The
statistics and coverage fields model the optional-chained accesses
item.statistics?.x and item.coverage?.x. -/
structure Item where
  provinceName : Value
  goodVotes : Value
  totalVotes : Value
  invalidVotes : Value
  noVotes : Value
  eligibleVoters : Value
  voterTurnoutPercentage : Value
  stationsReported : Value
  totalStations : Value
  percentage : Value
deriving DecidableEq

/-- The nine-field payload of the province statistics script (it does not
write the province name). -/
structure Payload where
  goodVotes : Value
  totalVotes : Value
  invalidVotes : Value
  noVotes : Value
  eligibleVoters : Value
  voterTurnoutPercentage : Value
  stationsReported : Value
  totalStations : Value
  percentage : Value
deriving DecidableEq

/-- The payload built in syncItem. -/
def buildPayload (item : Item) : Payload :=
  { goodVotes := item.goodVotes
    totalVotes := item.totalVotes
    invalidVotes := item.invalidVotes
    noVotes := item.noVotes
    eligibleVoters := item.eligibleVoters
    voterTurnoutPercentage := item.voterTurnoutPercentage
    stationsReported := item.stationsReported
    totalStations := item.totalStations
    percentage := item.percentage }

/-- A stored province record as this script sees it. -/
structure Rec where
  id : Nat
  name : Value
  goodVotes : Value
  totalVotes : Value
  invalidVotes : Value
  noVotes : Value
  eligibleVoters : Value
  voterTurnoutPercentage : Value
  stationsReported : Value
  totalStations : Value
  percentage : Value
  extra : List (String × Value)
deriving DecidableEq

/-- The provinces collection state as this script touches it. -/
structure Store where
  recs : List Rec
  nextId : Nat
  lookupErr : Option Nat
  writeErr : Bool
deriving DecidableEq

/-- getFirstListItem with the name equality filter on the province name. -/
def lookupByName (st : Store) (nm : Value) : Except Nat Rec :=
  match st.lookupErr with
  | some s => Except.error s
  | none =>
      match st.recs.find? (fun r => r.name = nm) with
      | some r => Except.ok r
      | none => Except.error 404

/-- The isChanged comparison: four of the nine payload fields. -/
def isChanged (r : Rec) (p : Payload) : Bool :=
  r.goodVotes != p.goodVotes ||
  r.totalVotes != p.totalVotes ||
  r.stationsReported != p.stationsReported ||
  r.percentage != p.percentage

/-- Effect of update(existing.id, payload): the nine payload fields are
overwritten; id, name and the opaque rest are untouched. -/
def applyPayload (r : Rec) (p : Payload) : Rec :=
  { r with
    goodVotes := p.goodVotes
    totalVotes := p.totalVotes
    invalidVotes := p.invalidVotes
    noVotes := p.noVotes
    eligibleVoters := p.eligibleVoters
    voterTurnoutPercentage := p.voterTurnoutPercentage
    stationsReported := p.stationsReported
    totalStations := p.totalStations
    percentage := p.percentage }

/-- update(id, payload). -/
def update (st : Store) (rid : Nat) (p : Payload) : Store :=
  { st with recs := st.recs.map (fun r => if r.id = rid then applyPayload r p else r) }

/-- syncItem of the province statistics script: update-only.  A province
absent from the store is reported skipped and nothing is written. -/
def syncItem (st : Store) (item : Item) : Verdict × Store :=
  let p := buildPayload item
  match lookupByName st item.provinceName with
  | Except.error s =>
      if s = 404 then (Verdict.skipped, st)
      else (Verdict.failed, st)
  | Except.ok r =>
      if isChanged r p then
        if st.writeErr then (Verdict.failed, st)
        else (Verdict.updated, update st r.id p)
      else (Verdict.skipped, st)

end ProvinceStats

/-! Party-list results sync (the script against the partylistResults
collection). -/

namespace PartylistResults

/-- The fields of a source party result item the script reads. -/
structure Item where
  totalVotes : Value
  automaticSeats : Value
  remainder : Value
  remainderSeats : Value
  totalSeats : Value
  percentage : Value
  partyName : Value
deriving DecidableEq

/-- The seven-field payload of the party-list results script. -/
structure Payload where
  totalVotes : Value
  automaticSeats : Value
  remainder : Value
  remainderSeats : Value
  totalSeats : Value
  percentage : Value
  party : Value
deriving DecidableEq

/-- The payload built in syncItem from the item and the resolved party
relation. -/
def buildPayload (item : Item) (partyId : Option String) : Payload :=
  { totalVotes := item.totalVotes
    automaticSeats := item.automaticSeats
    remainder := item.remainder
    remainderSeats := item.remainderSeats
    totalSeats := item.totalSeats
    percentage := item.percentage
    party := Partylist.optValue partyId }

/-- A stored record of the partylistResults collection. -/
structure Rec where
  id : Nat
  totalVotes : Value
  automaticSeats : Value
  remainder : Value
  remainderSeats : Value
  totalSeats : Value
  percentage : Value
  party : Value
  extra : List (String × Value)
deriving DecidableEq

/-- The partylistResults collection state. -/
structure Store where
  recs : List Rec
  nextId : Nat
  lookupErr : Option Nat
  writeErr : Bool
deriving DecidableEq

/-- getFirstListItem with the party relation equality filter. -/
def lookupByParty (st : Store) (pid : String) : Except Nat Rec :=
  match st.lookupErr with
  | some s => Except.error s
  | none =>
      match st.recs.find? (fun r => r.party = Value.vstr pid) with
      | some r => Except.ok r
      | none => Except.error 404

/-- JavaScript truthiness of the resolved party id (a string is falsy only
when empty; an unresolved relation is undefined, hence falsy). -/
def truthyId : Option String → Bool
  | none => false
  | some s => !(s = "")

/-- The isChanged comparison: six fields (the party relation itself is not
diffed). -/
def isChanged (r : Rec) (p : Payload) : Bool :=
  r.totalVotes != p.totalVotes ||
  r.automaticSeats != p.automaticSeats ||
  r.remainder != p.remainder ||
  r.remainderSeats != p.remainderSeats ||
  r.totalSeats != p.totalSeats ||
  r.percentage != p.percentage

/-- Effect of update(existing.id, payload). -/
def applyPayload (r : Rec) (p : Payload) : Rec :=
  { r with
    totalVotes := p.totalVotes
    automaticSeats := p.automaticSeats
    remainder := p.remainder
    remainderSeats := p.remainderSeats
    totalSeats := p.totalSeats
    percentage := p.percentage
    party := p.party }

/-- The record produced by create(payload). -/
def newRec (id : Nat) (p : Payload) : Rec :=
  { id := id
    totalVotes := p.totalVotes
    automaticSeats := p.automaticSeats
    remainder := p.remainder
    remainderSeats := p.remainderSeats
    totalSeats := p.totalSeats
    percentage := p.percentage
    party := p.party
    extra := [] }

/-- create(payload). -/
def create (st : Store) (p : Payload) : Store :=
  { st with recs := st.recs ++ [newRec st.nextId p], nextId := st.nextId + 1 }

/-- update(id, payload). -/
def update (st : Store) (rid : Nat) (p : Payload) : Store :=
  { st with recs := st.recs.map (fun r => if r.id = rid then applyPayload r p else r) }

/-- syncItem of the party-list results script.  The existing-record lookup
is guarded by the truthiness of the resolved party id: when the party name
did not resolve, no lookup is issued, existing stays null and the item
takes the create branch. -/
def syncItem (partiesLoad : Except String (List PartyRecord))
    (cache : Option JsMap) (st : Store) (item : Item) :
    Verdict × Store × Option JsMap :=
  let pr := getPartyId partiesLoad cache item.partyName
  let p := buildPayload item pr.1
  let looked : Except Nat (Option Rec) :=
    match pr.1 with
    | some pid =>
        if truthyId pr.1 then
          match lookupByParty st pid with
          | Except.error s => if s = 404 then Except.ok none else Except.error s
          | Except.ok r => Except.ok (some r)
        else Except.ok none
    | none => Except.ok none
  match looked with
  | Except.error _ => (Verdict.failed, st, pr.2)
  | Except.ok none =>
      if st.writeErr then (Verdict.failed, st, pr.2)
      else (Verdict.created, create st p, pr.2)
  | Except.ok (some r) =>
      if isChanged r p then
        if st.writeErr then (Verdict.failed, st, pr.2)
        else (Verdict.updated, update st r.id p, pr.2)
      else (Verdict.skipped, st, pr.2)

end PartylistResults

/-! National statistics sync (src/realtime/sync-national-statistics.js). -/

namespace NationalStats

/-- data.statistics of the fetched envelope. -/
structure StatFields where
  goodVotes : Value
  totalVotes : Value
  invalidVotes : Value
  noVotes : Value
  eligibleVoters : Value
  voterTurnoutPercentage : Value
deriving DecidableEq

/-- data.coverage of the fetched envelope. -/
structure CovFields where
  stationsReported : Value
  totalStations : Value
  percentage : Value
deriving DecidableEq

/-- The fetched data object: either of its two sub-objects may be absent,
in which case syncData bails out with failed. -/
structure Data where
  statistics : Option StatFields
  coverage : Option CovFields
deriving DecidableEq

/-- The nine-field payload of the national statistics script. -/
structure Payload where
  goodVotes : Value
  totalVotes : Value
  invalidVotes : Value
  noVotes : Value
  eligibleVoters : Value
  voterTurnoutPercentage : Value
  stationsReported : Value
  totalStations : Value
  percentage : Value
deriving DecidableEq

/-- The payload built in syncData once both sub-objects are present. -/
def buildPayload (s : StatFields) (c : CovFields) : Payload :=
  { goodVotes := s.goodVotes
    totalVotes := s.totalVotes
    invalidVotes := s.invalidVotes
    noVotes := s.noVotes
    eligibleVoters := s.eligibleVoters
    voterTurnoutPercentage := s.voterTurnoutPercentage
    stationsReported := c.stationsReported
    totalStations := c.totalStations
    percentage := c.percentage }

/-- A stored record of the national collection. -/
structure Rec where
  id : Nat
  goodVotes : Value
  totalVotes : Value
  invalidVotes : Value
  noVotes : Value
  eligibleVoters : Value
  voterTurnoutPercentage : Value
  stationsReported : Value
  totalStations : Value
  percentage : Value
  extra : List (String × Value)
deriving DecidableEq

/-- The national collection state.  listErr injects a failure of the
getList(1, 1) call. -/
structure Store where
  recs : List Rec
  nextId : Nat
  listErr : Option Nat
  writeErr : Bool
deriving DecidableEq

/-- The isChanged comparison: three key fields. -/
def isChanged (r : Rec) (p : Payload) : Bool :=
  r.goodVotes != p.goodVotes ||
  r.stationsReported != p.stationsReported ||
  r.percentage != p.percentage

/-- Effect of update(existing.id, payload). -/
def applyPayload (r : Rec) (p : Payload) : Rec :=
  { r with
    goodVotes := p.goodVotes
    totalVotes := p.totalVotes
    invalidVotes := p.invalidVotes
    noVotes := p.noVotes
    eligibleVoters := p.eligibleVoters
    voterTurnoutPercentage := p.voterTurnoutPercentage
    stationsReported := p.stationsReported
    totalStations := p.totalStations
    percentage := p.percentage }

/-- The record produced by create(payload). -/
def newRec (id : Nat) (p : Payload) : Rec :=
  { id := id
    goodVotes := p.goodVotes
    totalVotes := p.totalVotes
    invalidVotes := p.invalidVotes
    noVotes := p.noVotes
    eligibleVoters := p.eligibleVoters
    voterTurnoutPercentage := p.voterTurnoutPercentage
    stationsReported := p.stationsReported
    totalStations := p.totalStations
    percentage := p.percentage
    extra := [] }

/-- create(payload). -/
def create (st : Store) (p : Payload) : Store :=
  { st with recs := st.recs ++ [newRec st.nextId p], nextId := st.nextId + 1 }

/-- update(id, payload). -/
def update (st : Store) (rid : Nat) (p : Payload) : Store :=
  { st with recs := st.recs.map (fun r => if r.id = rid then applyPayload r p else r) }

/-- syncData of sync-national-statistics.js: the sole-existing-record
heuristic (getList page 1 of size 1); a failing list call is merely warned
about and treated as no existing record; then diff/update/create as
usual. -/
def syncData (st : Store) (d : Option Data) : Verdict × Store :=
  match d with
  | none => (Verdict.failed, st)
  | some data =>
      match data.statistics, data.coverage with
      | some s, some c =>
          let p := buildPayload s c
          let existing : Option Rec :=
            match st.listErr with
            | some _ => none
            | none => st.recs.head?
          match existing with
          | some r =>
              if isChanged r p then
                if st.writeErr then (Verdict.failed, st)
                else (Verdict.updated, update st r.id p)
              else (Verdict.skipped, st)
          | none =>
              if st.writeErr then (Verdict.failed, st)
              else (Verdict.created, create st p)
      | _, _ => (Verdict.failed, st)

/-- main of sync-national-statistics.js.  As in the referendum script, the
catch block only logs, so every outcome exits with status 0. -/
def main (authR : Except String String)
    (fetchR : Except String (Option Data)) (st : Store) :
    Nat × Option (Verdict × Store) :=
  match authR with
  | Except.error _ => (0, none)
  | Except.ok _ =>
      match fetchR with
      | Except.error _ => (0, none)
      | Except.ok d =>
          let r := syncData st d
          (0, some r)

end NationalStats

/-! The candidates realtime driver (the script with the unguarded
page-versus-totalPages comparison). -/

namespace Candidates

/-- The stop-after-processing condition of the candidates pagination loop:
if (page >= pagination.totalPages) hasMore = false.  When totalPages is
absent the JS comparison page >= undefined evaluates to false. -/
def stopAfter (page : Int) (tp : Option Int) : Bool :=
  match tp with
  | none => false
  | some t => decide (page ≥ t)

/-- One turn of the candidates pagination loop, reduced to its control
data, as in the partylist model. -/
def loopNext (page : Int) (itemsLen : Nat) (tp : Option Int) : Option Int :=
  if itemsLen = 0 then none
  else if stopAfter page tp then none
  else some (page + 1)

end Candidates

/-! The pagination policy as the specification words it, for comparison
with the drivers above. -/

namespace PaginationSpec

/-- Modelled from the spec: stop when a fetched page returns zero items, or
when the page number is at least the source-reported totalPages; otherwise
increment and continue. -/
def loopNext (page : Int) (itemsLen : Nat) (tp : Option Int) : Option Int :=
  if itemsLen = 0 then none
  else
    match tp with
    | some t => if page ≥ t then none else some (page + 1)
    | none => some (page + 1)

/-- Modelled from the spec, amended for the partylist driver: a reported
totalPages of 0 is falsy in JavaScript and is treated as if no totalPages
had been reported. -/
def loopNextTruthy (page : Int) (itemsLen : Nat) (tp : Option Int) : Option Int :=
  if itemsLen = 0 then none
  else
    match tp with
    | some t => if t ≠ 0 ∧ page ≥ t then none else some (page + 1)
    | none => some (page + 1)

end PaginationSpec

/-! Helper lemmas about the JS Map model. -/

/-- A key bound in a map is a member of the association list. -/
lemma mapGet_mem {m : JsMap} {k : Value} {v : String}
    (h : mapGet m k = some v) : (k, v) ∈ m := by
  unfold mapGet at h
  cases hf : m.find? (fun p => p.1 = k) with
  | none => rw [hf] at h; cases h
  | some pr =>
      rw [hf] at h
      have hp : pr.1 = k := by
        have := List.find?_some hf
        simpa using this
      have hm : pr ∈ m := List.mem_of_find?_eq_some hf
      have hv : pr.2 = v := by simpa using h
      have : pr = (k, v) := by
        cases pr
        simp_all
      rwa [this] at hm

/-- A map none of whose bindings carries the key resolves it to none. -/
lemma mapGet_eq_none {m : JsMap} {k : Value}
    (h : ∀ p ∈ m, p.1 ≠ k) : mapGet m k = none := by
  unfold mapGet
  have : m.find? (fun p => p.1 = k) = none := by
    rw [List.find?_eq_none]
    intro p hp
    simpa using h p hp
  rw [this]
  rfl

/-- mapSet preserves the absence of an unrelated key. -/
lemma mapSet_keeps_absent {m : JsMap} {k k2 : Value} {v : String}
    (h : ∀ p ∈ m, p.1 ≠ k) (hk : k2 ≠ k) :
    ∀ p ∈ mapSet m k2 v, p.1 ≠ k := by
  intro p hp
  unfold mapSet at hp
  by_cases hc : m.any (fun q => q.1 = k2)
  · rw [if_pos hc] at hp
    rcases List.mem_map.mp hp with ⟨q, hq, hpq⟩
    by_cases hq2 : q.1 = k2
    · rw [if_pos (by simpa using hq2)] at hpq
      rw [← hpq]
      simpa using hk
    · rw [if_neg (by simpa using hq2)] at hpq
      rw [← hpq]
      exact h q hq
  · rw [if_neg hc] at hp
    rcases List.mem_append.mp hp with hq | hq
    · exact h p hq
    · have : p = (k2, v) := by simpa using hq
      rw [this]
      simpa using hk

/-- A cache built from records none of which carries the key leaves the key
unbound. -/
lemma buildPartyCache_absent {rs : List PartyRecord} {k : Value}
    (h : ∀ r ∈ rs, r.name ≠ k) :
    mapGet (buildPartyCache rs) k = none := by
  suffices hgen : ∀ (rs : List PartyRecord) (acc : JsMap),
      (∀ r ∈ rs, r.name ≠ k) → (∀ p ∈ acc, p.1 ≠ k) →
      ∀ p ∈ rs.foldl (fun m r => mapSet m r.name r.id) acc, p.1 ≠ k by
    exact mapGet_eq_none (hgen rs [] h (by intro p hp; cases hp))
  intro rs
  induction rs with
  | nil => intro acc _ hacc p hp; exact hacc p hp
  | cons r rest ih =>
      intro acc hr hacc p hp
      exact ih (mapSet acc r.name r.id)
        (fun x hx => hr x (List.mem_cons_of_mem r hx))
        (mapSet_keeps_absent hacc (hr r (List.mem_cons_self r rest)))
        p hp

/-- C6: the authenticator contract.  With a valid process-wide session,
authenticate returns it unchanged and issues no network call.  Otherwise it
attempts user-credential authentication; on any failure of that attempt it
attempts admin authentication with the same credentials; and it throws —
carrying the admin (last) attempt's message — exactly when both attempts
fail.  The four conjuncts cover the whole input space of the function. -/
theorem authenticate_contract :
    (∀ (s : String) (u a : Except String String),
        authenticate (some s) u a = (Except.ok s, some s, [])) ∧
    (∀ (t : String) (a : Except String String),
        authenticate none (Except.ok t) a =
          (Except.ok t, some t, [AuthCall.userAuth])) ∧
    (∀ (m t : String),
        authenticate none (Except.error m) (Except.ok t) =
          (Except.ok t, some t, [AuthCall.userAuth, AuthCall.adminAuth])) ∧
    (∀ (m m2 : String),
        authenticate none (Except.error m) (Except.error m2) =
          (Except.error ("Authentication Failed: " ++ m2), none,
            [AuthCall.userAuth, AuthCall.adminAuth])) := by
  refine ⟨?_, ?_, ?_, ?_⟩ <;> intros <;> rfl

/-- C7: the relation-cache contract of getPartyId.  Resolution is a total
function (it never throws).  When the one-time full-list load fails the
cache is left as the empty map and every resolution — first and subsequent
— returns none; when the load succeeds the cache is the built map, a key
bound in it resolves to its stored id, and an absent key resolves to
none. -/
theorem getPartyId_contract :
    (∀ (e : String) (nm : Value),
        getPartyId (Except.error e) none nm = (none, some [])) ∧
    (∀ (pl : Except String (List PartyRecord)) (nm : Value),
        getPartyId pl (some []) nm = (none, some [])) ∧
    (∀ (rs : List PartyRecord) (nm : Value),
        getPartyId (Except.ok rs) none nm =
          (mapGet (buildPartyCache rs) nm, some (buildPartyCache rs))) ∧
    (∀ (m : JsMap) (k : Value) (v : String),
        mapGet m k = some v → (k, v) ∈ m) ∧
    (∀ (rs : List PartyRecord) (k : Value),
        (∀ r ∈ rs, r.name ≠ k) → mapGet (buildPartyCache rs) k = none) := by
  refine ⟨?_, ?_, ?_, ?_, ?_⟩
  · intro e nm; rfl
  · intro pl nm; rfl
  · intro rs nm; rfl
  · intro m k v h; exact mapGet_mem h
  · intro rs k h; exact buildPartyCache_absent h

/-- C7 witness: a failed load resolves nothing; a loaded cache holding
Party A resolves Party A to id1 and leaves Party B unresolved. -/
theorem getPartyId_contract_witness :
    getPartyId (Except.error "network error") none (Value.vstr "Party A") =
      (none, some []) ∧
    (Value.vstr "Party A", "id1") ∈
      buildPartyCache [⟨Value.vstr "Party A", "id1"⟩] ∧
    mapGet (buildPartyCache [⟨Value.vstr "Party A", "id1"⟩])
      (Value.vstr "Party B") = none := by
  refine ⟨getPartyId_contract.1 "network error" (Value.vstr "Party A"), ?_, ?_⟩
  · exact getPartyId_contract.2.2.2.1
      (buildPartyCache [⟨Value.vstr "Party A", "id1"⟩])
      (Value.vstr "Party A") "id1" (by decide)
  · exact getPartyId_contract.2.2.2.2 [⟨Value.vstr "Party A", "id1"⟩]
      (Value.vstr "Party B") (by decide)

/-- C4 counterexample: with a nonempty page and a source-reported
totalPages of 0, the claim's policy stops after page 1 (1 is at least the
reported totalPages), but the partylist driver's truthiness-guarded test
treats the 0 as falsy and continues to page 2. -/
theorem pagination_loop_cex :
    Partylist.loopNext 1 1 (some 0) = some 2 ∧
    PaginationSpec.loopNext 1 1 (some 0) = none ∧
    (some 2 : Option Int) ≠ none := by
  refine ⟨rfl, rfl, by decide⟩

/-- C4 (amended): the candidates driver's loop decision matches the claimed
policy exactly (stop on an empty page regardless of totalPages, stop after
a page whose number is at least the reported totalPages, else increment by
1); the partylist driver matches the policy amended so that a reported
totalPages of 0 — falsy in JavaScript — counts as not reported.  The run
starts at page 1 (the first processed page, when any page is processed, is
page 1), and an empty fetched page ends the run with no page processed. -/
theorem pagination_loop_amended :
    (∀ (page : Int) (len : Nat) (tp : Option Int),
        Candidates.loopNext page len tp = PaginationSpec.loopNext page len tp) ∧
    (∀ (page : Int) (len : Nat) (tp : Option Int),
        Partylist.loopNext page len tp = PaginationSpec.loopNextTruthy page len tp) ∧
    (∀ (fetch : Int → List Partylist.Item × Option Int) (fuel : Nat),
        Partylist.pagesMain fetch fuel ≠ [] →
        (Partylist.pagesMain fetch fuel).head? = some 1) ∧
    (∀ (fetch : Int → List Partylist.Item × Option Int) (fuel : Nat) (page : Int),
        (fetch page).1 = [] → Partylist.pagesTrace fetch (fuel + 1) page = []) := by
  refine ⟨?_, ?_, ?_, ?_⟩
  · intro page len tp
    cases tp with
    | none => simp [Candidates.loopNext, PaginationSpec.loopNext, Candidates.stopAfter]
    | some t =>
        simp only [Candidates.loopNext, PaginationSpec.loopNext, Candidates.stopAfter]
        by_cases hl : len = 0
        · simp [hl]
        · by_cases hp : page ≥ t
          · simp [hl, hp]
          · simp [hl, hp]
  · intro page len tp
    cases tp with
    | none => simp [Partylist.loopNext, PaginationSpec.loopNextTruthy, Partylist.stopAfter]
    | some t =>
        simp only [Partylist.loopNext, PaginationSpec.loopNextTruthy, Partylist.stopAfter]
        by_cases hl : len = 0
        · simp [hl]
        · by_cases ht : t = 0
          · simp [hl, ht]
          · by_cases hp : page ≥ t
            · simp [hl, ht, hp]
            · simp [hl, ht, hp]
  · intro fetch fuel h
    cases fuel with
    | zero => exact absurd rfl h
    | succ n =>
        unfold Partylist.pagesMain Partylist.pagesTrace at h ⊢
        by_cases he : (fetch 1).1.length = 0
        · rw [if_pos he] at h; exact absurd rfl h
        · rw [if_neg he] at h ⊢; rfl
  · intro fetch fuel page h
    unfold Partylist.pagesTrace
    simp only [h]
    rfl

/-- C4 witness: a source that reports an empty first page produces an empty
processed-page trace. -/
theorem pagination_loop_witness :
    Partylist.pagesTrace (fun _ => ([], some 7)) 4 1 = [] :=
  pagination_loop_amended.2.2.2 (fun _ => ([], some 7)) 3 1 rfl

/-- C5 counterexample: the referendum script's catch block only logs the
fatal error — there is no process.exit(1) — so an authentication failure
ends the process with exit status 0, not 1 as the claim states. -/
theorem exit_codes_cex :
    Referendum.main (Except.error "Authentication Failed: boom")
      (Except.ok []) ⟨[], 0, none, false⟩ = (0, none) ∧
    (0 : Nat) ≠ 1 := by
  exact ⟨rfl, by decide⟩

/-- C5 (amended): the partylist and parties scripts exit 1 on an
authentication failure or a top-level fetch failure and 0 on completion,
failed items included; the referendum and national-statistics scripts have
no exit(1) call in their catch blocks and exit 0 in every case,
authentication and fetch failures included. -/
theorem exit_codes_amended :
    (∀ (fetch : Int → Except String (List Partylist.Item × Option Int))
        (parties : Except String (List PartyRecord))
        (fuel : Nat) (st : Partylist.Store) (e : String),
        Partylist.main (Except.error e) fetch parties fuel st = some (1, none)) ∧
    (∀ (fetch : Int → Except String (List Partylist.Item × Option Int))
        (parties : Except String (List PartyRecord))
        (fuel : Nat) (st : Partylist.Store) (tok e : String),
        fetch 1 = Except.error e →
        Partylist.main (Except.ok tok) fetch parties (fuel + 1) st = some (1, none)) ∧
    (∀ (fetch : Int → Except String (List Partylist.Item × Option Int))
        (parties : Except String (List PartyRecord))
        (fuel : Nat) (st : Partylist.Store) (tok : String)
        (r : Stats × Partylist.Store),
        Partylist.mainLoop fetch parties fuel 1 ⟨0, 0, 0, 0⟩ st none =
          some (Except.ok r) →
        Partylist.main (Except.ok tok) fetch parties fuel st = some (0, some r)) ∧
    (∀ (fetchR : Except String (List Parties.Item)) (st : Parties.Store) (e : String),
        Parties.main (Except.error e) fetchR st = (1, none)) ∧
    (∀ (st : Parties.Store) (tok e : String),
        Parties.main (Except.ok tok) (Except.error e) st = (1, none)) ∧
    (∀ (items : List Parties.Item) (st : Parties.Store) (tok : String),
        (Parties.main (Except.ok tok) (Except.ok items) st).1 = 0) ∧
    (∀ (authR : Except String String) (fetchR : Except String (List Referendum.Item))
        (st : Referendum.Store), (Referendum.main authR fetchR st).1 = 0) ∧
    (∀ (authR : Except String String) (fetchR : Except String (Option NationalStats.Data))
        (st : NationalStats.Store), (NationalStats.main authR fetchR st).1 = 0) := by
  refine ⟨?_, ?_, ?_, ?_, ?_, ?_, ?_, ?_⟩
  · intro fetch parties fuel st e; rfl
  · intro fetch parties fuel st tok e h
    unfold Partylist.main Partylist.mainLoop
    rw [h]
  · intro fetch parties fuel st tok r h
    unfold Partylist.main
    rw [h]
  · intro fetchR st e; rfl
  · intro st tok e; rfl
  · intro items st tok; rfl
  · intro authR fetchR st
    cases authR with
    | error e => rfl
    | ok tok =>
        cases fetchR with
        | error e => rfl
        | ok items => rfl
  · intro authR fetchR st
    cases authR with
    | error e => rfl
    | ok tok =>
        cases fetchR with
        | error e => rfl
        | ok d => rfl

/-- C5 witness: a concrete failing first-page fetch makes the partylist
script exit 1, and a concrete completed parties run with one failed item
still exits 0. -/
theorem exit_codes_witness :
    Partylist.main (Except.ok "tok") (fun _ => Except.error "Fetch Page 1 Failed: boom")
      (Except.ok []) 3 ⟨[], 0, none, false⟩ = some (1, none) ∧
    (Parties.main (Except.ok "tok")
      (Except.ok [⟨Value.vstr "X", Value.vundef, Value.vundef, Value.vundef,
        Value.vundef, Value.vundef⟩]) ⟨[], 0, none, true⟩).1 = 0 := by
  constructor
  · exact exit_codes_amended.2.1 (fun _ => Except.error "Fetch Page 1 Failed: boom")
      (Except.ok []) 2 ⟨[], 0, none, false⟩ "tok" "Fetch Page 1 Failed: boom" rfl
  · exact exit_codes_amended.2.2.2.2.2.1 _ _ "tok"

/-- C9 counterexample: the allow-list of the parties payload has six
fields, not five — the payload object built for the scenario item has
exactly the six keys name, code, abbreviation, color, logoUrl and
totalCandidates. -/
theorem parties_scenario_cex :
    (Parties.payloadObj (Parties.buildPayload
      ⟨Value.vstr "X", Value.vstr "X1", Value.vundef, Value.vundef,
        Value.vundef, Value.vint 5⟩)).length = 6 ∧
    ¬ (Parties.payloadObj (Parties.buildPayload
      ⟨Value.vstr "X", Value.vstr "X1", Value.vundef, Value.vundef,
        Value.vundef, Value.vint 5⟩)).length = 5 := by
  exact ⟨rfl, by decide⟩

/-- C9 (amended): for the source item with name X, code X1 and
totalCandidates 5 and an empty store, the parties script's verdict is
created, the payload sent to the create call contains all six allow-listed
fields (the three absent on the item are present with value undefined), and
the run's final stats are created 1, updated 0, failed 0. -/
theorem parties_scenario_amended :
    (Parties.syncItem ⟨[], 0, none, false⟩
      ⟨Value.vstr "X", Value.vstr "X1", Value.vundef, Value.vundef,
        Value.vundef, Value.vint 5⟩).1 = Verdict.created ∧
    (Parties.payloadObj (Parties.buildPayload
      ⟨Value.vstr "X", Value.vstr "X1", Value.vundef, Value.vundef,
        Value.vundef, Value.vint 5⟩)).map Prod.fst =
      ["name", "code", "abbreviation", "color", "logoUrl", "totalCandidates"] ∧
    (Parties.run ⟨[], 0, none, false⟩
      [⟨Value.vstr "X", Value.vstr "X1", Value.vundef, Value.vundef,
        Value.vundef, Value.vint 5⟩]).1 = ⟨1, 0, 0⟩ := by
  exact ⟨rfl, rfl, rfl⟩

/-- C1 counterexample: run the parties script on a one-item source against
an empty store, then reconcile the same item again against the state the
first run produced: the second verdict is updated, not skipped — the
parties reconciler has no change detection and updates unconditionally
whenever the record exists. -/
theorem idempotence_cex :
    (Parties.syncItem
      (Parties.run ⟨[], 0, none, false⟩
        [⟨Value.vstr "X", Value.vstr "X1", Value.vundef, Value.vundef,
          Value.vundef, Value.vint 5⟩]).2
      ⟨Value.vstr "X", Value.vstr "X1", Value.vundef, Value.vundef,
        Value.vundef, Value.vint 5⟩).1 = Verdict.updated ∧
    Verdict.updated ≠ Verdict.skipped := by
  exact ⟨rfl, by decide⟩

/-- C10: in the party-list results script, when the party name does not
resolve to an id (the load may have failed or the name may be unbound), the
existing-record lookup is never attempted — the conclusion holds for every
store, in particular for stores whose lookup call would fail — so the item
takes the create branch, returns created when the store accepts the write,
and the new record's party relation is undefined. -/
theorem plr_unresolved_party_creates :
    ∀ (partiesLoad : Except String (List PartyRecord)) (c : Option JsMap)
      (st : PartylistResults.Store) (item : PartylistResults.Item),
      (getPartyId partiesLoad c item.partyName).1 = none →
      st.writeErr = false →
      PartylistResults.syncItem partiesLoad c st item =
        (Verdict.created,
          PartylistResults.create st (PartylistResults.buildPayload item none),
          (getPartyId partiesLoad c item.partyName).2) ∧
      (PartylistResults.newRec st.nextId
        (PartylistResults.buildPayload item none)).party = Value.vundef := by
  intro partiesLoad c st item h hw
  constructor
  · unfold PartylistResults.syncItem
    rcases hpr : getPartyId partiesLoad c item.partyName with ⟨pid, c2⟩
    rw [hpr] at h
    simp only at h
    subst h
    simp [hw]
  · rfl

/-- C10 witness: with a failed party-cache load, a store whose lookup call
would fail with status 500, and a record for the same party already
present, the item is still created (the lookup is not consulted) and the
created record's party relation is undefined. -/
theorem plr_unresolved_party_creates_witness :
    PartylistResults.syncItem (Except.error "boom") none
      ⟨[⟨7, Value.vint 1, Value.vint 0, Value.vint 0, Value.vint 0,
          Value.vint 0, Value.vint 0, Value.vstr "p1", []⟩], 8, some 500, false⟩
      ⟨Value.vint 1, Value.vint 0, Value.vint 0, Value.vint 0, Value.vint 0,
        Value.vint 0, Value.vstr "Party A"⟩ =
      (Verdict.created,
        PartylistResults.create
          ⟨[⟨7, Value.vint 1, Value.vint 0, Value.vint 0, Value.vint 0,
              Value.vint 0, Value.vint 0, Value.vstr "p1", []⟩], 8, some 500, false⟩
          (PartylistResults.buildPayload
            ⟨Value.vint 1, Value.vint 0, Value.vint 0, Value.vint 0, Value.vint 0,
              Value.vint 0, Value.vstr "Party A"⟩ none),
        some []) ∧
    (PartylistResults.newRec 8
      (PartylistResults.buildPayload
        ⟨Value.vint 1, Value.vint 0, Value.vint 0, Value.vint 0, Value.vint 0,
          Value.vint 0, Value.vstr "Party A"⟩ none)).party = Value.vundef := by
  exact plr_unresolved_party_creates (Except.error "boom") none _ _ rfl rfl

/-- C3: behaviour on a missing stored record.  The update-only scripts
(candidate score, province statistics) return skipped and leave the store
untouched; the create-capable scripts (partylist, referendum, parties)
issue exactly one create — the store grows by exactly the one new record
built from the payload — return created, and the created record's natural
key (name, respectively question number) equals the source item's. -/
theorem absence_behaviour :
    (∀ (st : Score.Store) (item : Score.Item),
        st.lookupErr = none →
        st.recs.find? (fun r => r.name = item.name) = none →
        Score.syncItem st item = (Verdict.skipped, st)) ∧
    (∀ (st : ProvinceStats.Store) (item : ProvinceStats.Item),
        st.lookupErr = none →
        st.recs.find? (fun r => r.name = item.provinceName) = none →
        ProvinceStats.syncItem st item = (Verdict.skipped, st)) ∧
    (∀ (partiesLoad : Except String (List PartyRecord)) (c : Option JsMap)
        (st : Partylist.Store) (item : Partylist.Item),
        st.lookupErr = none → st.writeErr = false →
        st.recs.find? (fun r => r.name = item.name) = none →
        (Partylist.syncItem partiesLoad c st item).1 = Verdict.created ∧
        (Partylist.syncItem partiesLoad c st item).2.1.recs =
          st.recs ++ [Partylist.newRec st.nextId
            (Partylist.buildPayload item (getPartyId partiesLoad c item.partyName).1)] ∧
        ∀ (p : Partylist.Payload) (n : Nat),
          (Partylist.newRec n p).name = p.name) ∧
    (∀ (st : Referendum.Store) (item : Referendum.Item),
        st.lookupErr = none → st.writeErr = false →
        st.recs.find? (fun r => r.number = item.questionNumber) = none →
        (Referendum.syncItem st item).1 = Verdict.created ∧
        (Referendum.syncItem st item).2.recs =
          st.recs ++ [Referendum.newRec st.nextId (Referendum.buildPayload item)] ∧
        (Referendum.newRec st.nextId (Referendum.buildPayload item)).number =
          item.questionNumber) ∧
    (∀ (st : Parties.Store) (item : Parties.Item),
        st.lookupErr = none → st.writeErr = false →
        st.recs.find? (fun r => r.name = item.name) = none →
        (Parties.syncItem st item).1 = Verdict.created ∧
        (Parties.syncItem st item).2.recs =
          st.recs ++ [Parties.newRec st.nextId (Parties.buildPayload item)] ∧
        (Parties.newRec st.nextId (Parties.buildPayload item)).name = item.name) := by
  refine ⟨?_, ?_, ?_, ?_, ?_⟩
  · intro st item hl hf
    unfold Score.syncItem Score.lookupByName
    rw [hl, hf]
    rfl
  · intro st item hl hf
    unfold ProvinceStats.syncItem ProvinceStats.lookupByName
    rw [hl, hf]
    rfl
  · intro partiesLoad c st item hl hw hf
    refine ⟨?_, ?_, fun p n => rfl⟩
    · unfold Partylist.syncItem Partylist.lookupByName
      rw [hl, hf]
      simp [hw]
    · unfold Partylist.syncItem Partylist.lookupByName
      rw [hl, hf]
      simp [hw, Partylist.create]
  · intro st item hl hw hf
    refine ⟨?_, ?_, rfl⟩
    · unfold Referendum.syncItem Referendum.lookupByNumber
      rw [hl, hf]
      simp [hw]
    · unfold Referendum.syncItem Referendum.lookupByNumber
      rw [hl, hf]
      simp [hw, Referendum.create]
  · intro st item hl hw hf
    refine ⟨?_, ?_, rfl⟩
    · unfold Parties.syncItem Parties.lookupByName
      rw [hl, hf]
      simp [hw]
    · unfold Parties.syncItem Parties.lookupByName
      rw [hl, hf]
      simp [hw, Parties.create]

/-- C3 witness: a concrete score item with no matching candidate record is
skipped without a write, and a concrete referendum question with no
matching record is created with question number 1. -/
theorem absence_behaviour_witness :
    Score.syncItem ⟨[], 0, none, false⟩
      ⟨Value.vstr "A", Value.vint 10, Value.vint 1, Value.vint 50⟩ =
      (Verdict.skipped, ⟨[], 0, none, false⟩) ∧
    (Referendum.syncItem ⟨[], 0, none, false⟩
      ⟨Value.vint 1, Value.vstr "Q", [], Value.vint 0, Value.vint 0,
        Value.vint 0, Value.vint 0⟩).1 = Verdict.created ∧
    (Referendum.newRec 0 (Referendum.buildPayload
      ⟨Value.vint 1, Value.vstr "Q", [], Value.vint 0, Value.vint 0,
        Value.vint 0, Value.vint 0⟩)).number = Value.vint 1 := by
  refine ⟨?_, ?_, ?_⟩
  · exact absence_behaviour.1 ⟨[], 0, none, false⟩
      ⟨Value.vstr "A", Value.vint 10, Value.vint 1, Value.vint 50⟩ rfl rfl
  · exact (absence_behaviour.2.2.2.1 ⟨[], 0, none, false⟩
      ⟨Value.vint 1, Value.vstr "Q", [], Value.vint 0, Value.vint 0,
        Value.vint 0, Value.vint 0⟩ rfl rfl rfl).1
  · exact (absence_behaviour.2.2.2.1 ⟨[], 0, none, false⟩
      ⟨Value.vint 1, Value.vstr "Q", [], Value.vint 0, Value.vint 0,
        Value.vint 0, Value.vint 0⟩ rfl rfl rfl).2.2

/-- Bumping any verdict increases the sum of the four counters by one. -/
lemma Stats.bump_total (s : Stats) (v : Verdict) :
    (s.bump v).created + (s.bump v).updated + (s.bump v).skipped + (s.bump v).failed =
      s.created + s.updated + s.skipped + s.failed + 1 := by
  cases v <;> simp [Stats.bump] <;> omega

/-- Every item of a partylist batch is accounted for in exactly one
counter: the per-item loop never aborts. -/
lemma Partylist.runFrom_total (partiesLoad : Except String (List PartyRecord)) :
    ∀ (items : List Partylist.Item) (stats : Stats) (st : Partylist.Store)
      (c : Option JsMap),
      ((Partylist.runFrom partiesLoad stats st c items).1.created +
        (Partylist.runFrom partiesLoad stats st c items).1.updated +
        (Partylist.runFrom partiesLoad stats st c items).1.skipped +
        (Partylist.runFrom partiesLoad stats st c items).1.failed) =
        stats.created + stats.updated + stats.skipped + stats.failed + items.length := by
  intro items
  induction items with
  | nil => intro stats st c; rfl
  | cons item rest ih =>
      intro stats st c
      unfold Partylist.runFrom
      rw [ih]
      rw [Stats.bump_total]
      simp
      omega

/-- Every item of a referendum batch is accounted for in exactly one
counter. -/
lemma Referendum.runTotal :
    ∀ (items : List Referendum.Item) (stats : Stats) (st : Referendum.Store),
      ((Referendum.runFrom stats st items).1.created +
        (Referendum.runFrom stats st items).1.updated +
        (Referendum.runFrom stats st items).1.skipped +
        (Referendum.runFrom stats st items).1.failed) =
        stats.created + stats.updated + stats.skipped + stats.failed + items.length := by
  intro items
  induction items with
  | nil => intro stats st; rfl
  | cons item rest ih =>
      intro stats st
      unfold Referendum.runFrom
      rw [ih]
      rw [Stats.bump_total]
      simp
      omega

/-- C8: per-item error containment in the partylist and referendum
reconcilers.  A lookup error with status 404 is the expected not-found path
and leads to the create branch; a lookup error with any other status is
caught inside syncItem and yields failed with the store untouched; a
failing create or update call yields failed with the store untouched; and
the batch loop accounts every item in exactly one counter, whatever
verdicts occur, so one failed item never aborts the batch. -/
theorem per_item_error_containment :
    (∀ (partiesLoad : Except String (List PartyRecord)) (c : Option JsMap)
        (st : Partylist.Store) (item : Partylist.Item) (s : Nat),
        st.lookupErr = some s → s ≠ 404 →
        Partylist.syncItem partiesLoad c st item =
          (Verdict.failed, st, (getPartyId partiesLoad c item.partyName).2)) ∧
    (∀ (partiesLoad : Except String (List PartyRecord)) (c : Option JsMap)
        (st : Partylist.Store) (item : Partylist.Item),
        st.lookupErr = some 404 → st.writeErr = false →
        (Partylist.syncItem partiesLoad c st item).1 = Verdict.created) ∧
    (∀ (partiesLoad : Except String (List PartyRecord)) (c : Option JsMap)
        (st : Partylist.Store) (item : Partylist.Item),
        st.writeErr = true → st.lookupErr = none →
        st.recs.find? (fun r => r.name = item.name) = none →
        Partylist.syncItem partiesLoad c st item =
          (Verdict.failed, st, (getPartyId partiesLoad c item.partyName).2)) ∧
    (∀ (partiesLoad : Except String (List PartyRecord)) (c : Option JsMap)
        (st : Partylist.Store) (item : Partylist.Item) (r : Partylist.Rec),
        st.writeErr = true → st.lookupErr = none →
        st.recs.find? (fun x => x.name = item.name) = some r →
        Partylist.isChanged r (Partylist.buildPayload item
          (getPartyId partiesLoad c item.partyName).1) = true →
        Partylist.syncItem partiesLoad c st item =
          (Verdict.failed, st, (getPartyId partiesLoad c item.partyName).2)) ∧
    (∀ (partiesLoad : Except String (List PartyRecord)) (items : List Partylist.Item)
        (stats : Stats) (st : Partylist.Store) (c : Option JsMap),
        ((Partylist.runFrom partiesLoad stats st c items).1.created +
          (Partylist.runFrom partiesLoad stats st c items).1.updated +
          (Partylist.runFrom partiesLoad stats st c items).1.skipped +
          (Partylist.runFrom partiesLoad stats st c items).1.failed) =
          stats.created + stats.updated + stats.skipped + stats.failed + items.length) ∧
    (∀ (st : Referendum.Store) (item : Referendum.Item) (s : Nat),
        st.lookupErr = some s → s ≠ 404 →
        Referendum.syncItem st item = (Verdict.failed, st)) ∧
    (∀ (st : Referendum.Store) (item : Referendum.Item),
        st.lookupErr = some 404 → st.writeErr = false →
        (Referendum.syncItem st item).1 = Verdict.created) ∧
    (∀ (st : Referendum.Store) (item : Referendum.Item) (r : Referendum.Rec),
        st.writeErr = true → st.lookupErr = none →
        st.recs.find? (fun x => x.number = item.questionNumber) = some r →
        Referendum.isChanged r (Referendum.buildPayload item) = true →
        Referendum.syncItem st item = (Verdict.failed, st)) ∧
    (∀ (items : List Referendum.Item) (stats : Stats) (st : Referendum.Store),
        ((Referendum.runFrom stats st items).1.created +
          (Referendum.runFrom stats st items).1.updated +
          (Referendum.runFrom stats st items).1.skipped +
          (Referendum.runFrom stats st items).1.failed) =
          stats.created + stats.updated + stats.skipped + stats.failed + items.length) := by
  refine ⟨?_, ?_, ?_, ?_, ?_, ?_, ?_, ?_, ?_⟩
  · intro partiesLoad c st item s hl hs
    unfold Partylist.syncItem Partylist.lookupByName
    rw [hl]
    simp [hs]
  · intro partiesLoad c st item hl hw
    unfold Partylist.syncItem Partylist.lookupByName
    rw [hl]
    simp [hw]
  · intro partiesLoad c st item hw hl hf
    unfold Partylist.syncItem Partylist.lookupByName
    rw [hl, hf]
    simp [hw]
  · intro partiesLoad c st item r hw hl hf hc
    unfold Partylist.syncItem Partylist.lookupByName
    rw [hl, hf]
    simp [hw, hc]
  · intro partiesLoad items stats st c
    exact Partylist.runFrom_total partiesLoad items stats st c
  · intro st item s hl hs
    unfold Referendum.syncItem Referendum.lookupByNumber
    rw [hl]
    simp [hs]
  · intro st item hl hw
    unfold Referendum.syncItem Referendum.lookupByNumber
    rw [hl]
    simp [hw]
  · intro st item r hw hl hf hc
    unfold Referendum.syncItem Referendum.lookupByNumber
    rw [hl, hf]
    simp [hw, hc]
  · intro items stats st
    exact Referendum.runTotal items stats st

/-- C8 witness: a concrete partylist item against a store whose lookup
fails with status 500 yields failed and leaves the store untouched, and a
two-item batch over that store counts both items (one counter each). -/
theorem per_item_error_containment_witness :
    Partylist.syncItem (Except.ok []) none ⟨[], 0, some 500, false⟩
      ⟨Value.vstr "A", Value.vint 1, Value.vundef, Value.vundef, Value.vundef,
        Value.vnull, Value.vbool true, Value.vstr "P"⟩ =
      (Verdict.failed, ⟨[], 0, some 500, false⟩, some []) ∧
    ((Partylist.runFrom (Except.ok []) ⟨0, 0, 0, 0⟩ ⟨[], 0, some 500, false⟩ none
      [⟨Value.vstr "A", Value.vint 1, Value.vundef, Value.vundef, Value.vundef,
        Value.vnull, Value.vbool true, Value.vstr "P"⟩,
       ⟨Value.vstr "B", Value.vint 2, Value.vundef, Value.vundef, Value.vundef,
        Value.vnull, Value.vbool true, Value.vstr "P"⟩]).1.created +
      (Partylist.runFrom (Except.ok []) ⟨0, 0, 0, 0⟩ ⟨[], 0, some 500, false⟩ none
      [⟨Value.vstr "A", Value.vint 1, Value.vundef, Value.vundef, Value.vundef,
        Value.vnull, Value.vbool true, Value.vstr "P"⟩,
       ⟨Value.vstr "B", Value.vint 2, Value.vundef, Value.vundef, Value.vundef,
        Value.vnull, Value.vbool true, Value.vstr "P"⟩]).1.updated +
      (Partylist.runFrom (Except.ok []) ⟨0, 0, 0, 0⟩ ⟨[], 0, some 500, false⟩ none
      [⟨Value.vstr "A", Value.vint 1, Value.vundef, Value.vundef, Value.vundef,
        Value.vnull, Value.vbool true, Value.vstr "P"⟩,
       ⟨Value.vstr "B", Value.vint 2, Value.vundef, Value.vundef, Value.vundef,
        Value.vnull, Value.vbool true, Value.vstr "P"⟩]).1.skipped +
      (Partylist.runFrom (Except.ok []) ⟨0, 0, 0, 0⟩ ⟨[], 0, some 500, false⟩ none
      [⟨Value.vstr "A", Value.vint 1, Value.vundef, Value.vundef, Value.vundef,
        Value.vnull, Value.vbool true, Value.vstr "P"⟩,
       ⟨Value.vstr "B", Value.vint 2, Value.vundef, Value.vundef, Value.vundef,
        Value.vnull, Value.vbool true, Value.vstr "P"⟩]).1.failed) = 2 := by
  constructor
  · exact per_item_error_containment.1 (Except.ok []) none ⟨[], 0, some 500, false⟩
      ⟨Value.vstr "A", Value.vint 1, Value.vundef, Value.vundef, Value.vundef,
        Value.vnull, Value.vbool true, Value.vstr "P"⟩ 500 rfl (by decide)
  · exact per_item_error_containment.2.2.2.2.1 (Except.ok [])
      [⟨Value.vstr "A", Value.vint 1, Value.vundef, Value.vundef, Value.vundef,
        Value.vnull, Value.vbool true, Value.vstr "P"⟩,
       ⟨Value.vstr "B", Value.vint 2, Value.vundef, Value.vundef, Value.vundef,
        Value.vnull, Value.vbool true, Value.vstr "P"⟩]
      ⟨0, 0, 0, 0⟩ ⟨[], 0, some 500, false⟩ none

/-- C2 counterexample: in the referendum reconciler the diffed (owned)
fields are only eight of the twelve payload fields.  First: a stored record
whose title (owned) and goodVotes (not diffed) both differ from the payload
is updated, and the update also overwrites goodVotes — a field outside the
diffed set does not remain byte-identical.  Second: a stored record
differing from the payload only in goodVotes is skipped, so under the
reading that the owned set is the payload allow-list, an owned-field
difference fails to produce an update.  Either reading falsifies the
claim. -/
theorem owned_diff_frame_cex :
    (Referendum.syncItem
      ⟨[⟨3, Value.vint 1, Value.vstr "old", Value.vint 0, Value.vint 0,
          Value.vint 0, Value.vint 0, Value.vint 0, Value.vint 0,
          Value.vint 5, Value.vint 0, Value.vint 0, Value.vint 0, []⟩],
        4, none, false⟩
      ⟨Value.vint 1, Value.vstr "new", [], Value.vint 7, Value.vint 0,
        Value.vint 0, Value.vint 0⟩).1 = Verdict.updated ∧
    ((Referendum.syncItem
      ⟨[⟨3, Value.vint 1, Value.vstr "old", Value.vint 0, Value.vint 0,
          Value.vint 0, Value.vint 0, Value.vint 0, Value.vint 0,
          Value.vint 5, Value.vint 0, Value.vint 0, Value.vint 0, []⟩],
        4, none, false⟩
      ⟨Value.vint 1, Value.vstr "new", [], Value.vint 7, Value.vint 0,
        Value.vint 0, Value.vint 0⟩).2.recs.map (fun r => r.goodVotes)) =
      [Value.vint 7] ∧
    Value.vint 7 ≠ Value.vint 5 ∧
    (Referendum.syncItem
      ⟨[⟨9, Value.vint 2, Value.vstr "t", Value.vint 0, Value.vint 0,
          Value.vint 0, Value.vint 0, Value.vint 0, Value.vint 0,
          Value.vint 5, Value.vint 0, Value.vint 0, Value.vint 0, []⟩],
        10, none, false⟩
      ⟨Value.vint 2, Value.vstr "t", [], Value.vint 7, Value.vint 0,
        Value.vint 0, Value.vint 0⟩).1 = Verdict.skipped := by
  exact ⟨rfl, rfl, by decide, rfl⟩

/-- C2 (amended): when a stored record exists and a diffed (owned) field
differs from the built payload, the referendum reconciler returns updated
and the update overwrites exactly the twelve allow-listed payload fields:
the record's id and every field outside the allow-list are byte-identical
afterwards, while payload fields outside the diffed set (number, goodVotes,
invalidVotes, noVotes) are overwritten as well; and a difference confined
to those non-diffed payload fields does not trigger an update — the item is
skipped and nothing is written. -/
theorem owned_diff_frame_amended :
    (∀ (st : Referendum.Store) (item : Referendum.Item) (r : Referendum.Rec),
        st.lookupErr = none → st.writeErr = false →
        st.recs.find? (fun x => x.number = item.questionNumber) = some r →
        Referendum.isChanged r (Referendum.buildPayload item) = true →
        Referendum.syncItem st item =
          (Verdict.updated, Referendum.update st r.id (Referendum.buildPayload item))) ∧
    (∀ (x : Referendum.Rec) (p : Referendum.Payload),
        (Referendum.applyPayload x p).id = x.id ∧
        (Referendum.applyPayload x p).extra = x.extra ∧
        (Referendum.applyPayload x p).number = p.number ∧
        (Referendum.applyPayload x p).title = p.title ∧
        (Referendum.applyPayload x p).agreeTotalVotes = p.agreeTotalVotes ∧
        (Referendum.applyPayload x p).agreePercentage = p.agreePercentage ∧
        (Referendum.applyPayload x p).agreeRank = p.agreeRank ∧
        (Referendum.applyPayload x p).disagreeTotalVotes = p.disagreeTotalVotes ∧
        (Referendum.applyPayload x p).disagreePercentage = p.disagreePercentage ∧
        (Referendum.applyPayload x p).disagreeRank = p.disagreeRank ∧
        (Referendum.applyPayload x p).goodVotes = p.goodVotes ∧
        (Referendum.applyPayload x p).totalVotes = p.totalVotes ∧
        (Referendum.applyPayload x p).invalidVotes = p.invalidVotes ∧
        (Referendum.applyPayload x p).noVotes = p.noVotes) ∧
    (∀ (st : Referendum.Store) (item : Referendum.Item) (r : Referendum.Rec),
        st.lookupErr = none →
        st.recs.find? (fun x => x.number = item.questionNumber) = some r →
        Referendum.isChanged r (Referendum.buildPayload item) = false →
        Referendum.syncItem st item = (Verdict.skipped, st)) := by
  refine ⟨?_, ?_, ?_⟩
  · intro st item r hl hw hf hc
    unfold Referendum.syncItem Referendum.lookupByNumber
    rw [hl, hf]
    simp [hc, hw]
  · intro x p
    refine ⟨rfl, rfl, rfl, rfl, rfl, rfl, rfl, rfl, rfl, rfl, rfl, rfl, rfl, rfl⟩
  · intro st item r hl hf hc
    unfold Referendum.syncItem Referendum.lookupByNumber
    rw [hl, hf]
    simp [hc]

/-- C2 witness: a stored question record whose title differs is updated,
the update writing the payload into the record in place; the record's
opaque tail field survives the update. -/
theorem owned_diff_frame_witness :
    Referendum.syncItem
      ⟨[⟨3, Value.vint 1, Value.vstr "old", Value.vint 0, Value.vint 0,
          Value.vint 0, Value.vint 0, Value.vint 0, Value.vint 0,
          Value.vint 5, Value.vint 0, Value.vint 0, Value.vint 0,
          [("slug", Value.vstr "q1")]⟩], 4, none, false⟩
      ⟨Value.vint 1, Value.vstr "B", [], Value.vint 7, Value.vint 0,
        Value.vint 0, Value.vint 0⟩ =
      (Verdict.updated, Referendum.update
        ⟨[⟨3, Value.vint 1, Value.vstr "old", Value.vint 0, Value.vint 0,
            Value.vint 0, Value.vint 0, Value.vint 0, Value.vint 0,
            Value.vint 5, Value.vint 0, Value.vint 0, Value.vint 0,
            [("slug", Value.vstr "q1")]⟩], 4, none, false⟩
        3 (Referendum.buildPayload
          ⟨Value.vint 1, Value.vstr "B", [], Value.vint 7, Value.vint 0,
            Value.vint 0, Value.vint 0⟩)) ∧
    (Referendum.applyPayload
      ⟨3, Value.vint 1, Value.vstr "old", Value.vint 0, Value.vint 0,
        Value.vint 0, Value.vint 0, Value.vint 0, Value.vint 0,
        Value.vint 5, Value.vint 0, Value.vint 0, Value.vint 0,
        [("slug", Value.vstr "q1")]⟩
      (Referendum.buildPayload
        ⟨Value.vint 1, Value.vstr "B", [], Value.vint 7, Value.vint 0,
          Value.vint 0, Value.vint 0⟩)).extra = [("slug", Value.vstr "q1")] := by
  constructor
  · exact owned_diff_frame_amended.1
      ⟨[⟨3, Value.vint 1, Value.vstr "old", Value.vint 0, Value.vint 0,
          Value.vint 0, Value.vint 0, Value.vint 0, Value.vint 0,
          Value.vint 5, Value.vint 0, Value.vint 0, Value.vint 0,
          [("slug", Value.vstr "q1")]⟩], 4, none, false⟩
      ⟨Value.vint 1, Value.vstr "B", [], Value.vint 7, Value.vint 0,
        Value.vint 0, Value.vint 0⟩
      ⟨3, Value.vint 1, Value.vstr "old", Value.vint 0, Value.vint 0,
        Value.vint 0, Value.vint 0, Value.vint 0, Value.vint 0,
        Value.vint 5, Value.vint 0, Value.vint 0, Value.vint 0,
        [("slug", Value.vstr "q1")]⟩ rfl rfl rfl rfl
  · exact (owned_diff_frame_amended.2.1
      ⟨3, Value.vint 1, Value.vstr "old", Value.vint 0, Value.vint 0,
        Value.vint 0, Value.vint 0, Value.vint 0, Value.vint 0,
        Value.vint 5, Value.vint 0, Value.vint 0, Value.vint 0,
        [("slug", Value.vstr "q1")]⟩
      (Referendum.buildPayload
        ⟨Value.vint 1, Value.vstr "B", [], Value.vint 7, Value.vint 0,
          Value.vint 0, Value.vint 0⟩)).2.1

/-! Generic list helpers for the idempotence proof. -/

/-- Two members of a list on which a projection is duplicate-free and
agrees are the same element. -/
lemma nodup_key_unique {α β : Type} [DecidableEq β] (f : α → β) :
    ∀ (l : List α), (l.map f).Nodup → ∀ x ∈ l, ∀ y ∈ l, f x = f y → x = y := by
  intro l
  induction l with
  | nil => intro _ x hx; cases hx
  | cons a t ih =>
      intro h x hx y hy hxy
      rw [List.map_cons, List.nodup_cons] at h
      rcases List.mem_cons.mp hx with rfl | hx2
      · rcases List.mem_cons.mp hy with rfl | hy2
        · rfl
        · exfalso
          apply h.1
          rw [hxy]
          exact List.mem_map.mpr ⟨y, hy2, rfl⟩
      · rcases List.mem_cons.mp hy with rfl | hy2
        · exfalso
          apply h.1
          rw [← hxy]
          exact List.mem_map.mpr ⟨x, hx2, rfl⟩
        · exact ih h.2 x hx2 y hy2 hxy

/-- find? commutes with mapping a function that does not disturb the
predicate on any member of the list. -/
lemma find?_map_congr {α : Type} (g : α → α) (q : α → Bool) :
    ∀ (l : List α), (∀ x ∈ l, q (g x) = q x) →
      (l.map g).find? q = (l.find? q).map g := by
  intro l
  induction l with
  | nil => intro _; rfl
  | cons a t ih =>
      intro h
      have hga : q (g a) = q a := h a (List.mem_cons_self a t)
      rw [List.map_cons]
      by_cases ha : q a
      · rw [List.find?_cons_of_pos t ha, List.find?_cons_of_pos (t.map g) (by rw [hga]; exact ha)]
        rfl
      · rw [List.find?_cons_of_neg t ha, List.find?_cons_of_neg (t.map g) (by rw [hga]; exact ha)]
        exact ih (fun x hx => h x (List.mem_cons_of_mem a hx))

namespace Partylist

/-- The payload a run computes for an item, as a function of the party-list
load outcome: the cache consulted is always the one the first load attempt
left behind. -/
def payloadOf (partiesLoad : Except String (List PartyRecord)) (item : Item) : Payload :=
  buildPayload item (mapGet (effCache partiesLoad) item.partyName)

/-- The cache states that occur during a run: not yet loaded, or exactly
the map the load attempt produced. -/
def CacheOK (partiesLoad : Except String (List PartyRecord)) (c : Option JsMap) : Prop :=
  c = none ∨ c = some (effCache partiesLoad)

/-- In either reachable cache state, resolution consults the loaded map and
leaves it as the cache. -/
lemma getPartyId_run {partiesLoad : Except String (List PartyRecord)}
    {c : Option JsMap} (h : CacheOK partiesLoad c) (nm : Value) :
    getPartyId partiesLoad c nm =
      (mapGet (effCache partiesLoad) nm, some (effCache partiesLoad)) := by
  rcases h with rfl | rfl
  · rfl
  · rfl

/-- Store well-formedness: store-assigned ids are distinct and below the
next fresh id. -/
def WF (st : Store) : Prop :=
  (st.recs.map (fun r => r.id)).Nodup ∧ ∀ r ∈ st.recs, r.id < st.nextId

/-- The item's record is in sync: the first record carrying the item's name
exists and none of the diffed fields differs from the item's payload. -/
def Good (partiesLoad : Except String (List PartyRecord)) (st : Store) (item : Item) : Prop :=
  ∃ r, st.recs.find? (fun x => x.name = item.name) = some r ∧
    isChanged r (payloadOf partiesLoad item) = false

/-- Characterization of syncItem on the happy path when no record carries
the item's name: it creates the payload record. -/
lemma syncItem_not_found {partiesLoad : Except String (List PartyRecord)}
    {c : Option JsMap} {st : Store} {item : Item}
    (hC : CacheOK partiesLoad c) (hl : st.lookupErr = none) (hw : st.writeErr = false)
    (hf : st.recs.find? (fun x => x.name = item.name) = none) :
    syncItem partiesLoad c st item =
      (Verdict.created, create st (payloadOf partiesLoad item),
        some (effCache partiesLoad)) := by
  unfold syncItem lookupByName
  rw [getPartyId_run hC, hl, hf]
  simp [hw, payloadOf]

/-- Characterization of syncItem on the happy path when the first record
carrying the item's name has a differing diffed field: it updates that
record with the payload. -/
lemma syncItem_found_changed {partiesLoad : Except String (List PartyRecord)}
    {c : Option JsMap} {st : Store} {item : Item} {r : Rec}
    (hC : CacheOK partiesLoad c) (hl : st.lookupErr = none) (hw : st.writeErr = false)
    (hf : st.recs.find? (fun x => x.name = item.name) = some r)
    (hc : isChanged r (payloadOf partiesLoad item) = true) :
    syncItem partiesLoad c st item =
      (Verdict.updated, update st r.id (payloadOf partiesLoad item),
        some (effCache partiesLoad)) := by
  unfold syncItem lookupByName
  rw [getPartyId_run hC, hl, hf]
  simp [hw, payloadOf] at hc ⊢
  simp [hc]

/-- Characterization of syncItem when the first record carrying the item's
name matches the payload on every diffed field: it skips and writes
nothing. -/
lemma syncItem_found_same {partiesLoad : Except String (List PartyRecord)}
    {c : Option JsMap} {st : Store} {item : Item} {r : Rec}
    (hC : CacheOK partiesLoad c) (hl : st.lookupErr = none)
    (hf : st.recs.find? (fun x => x.name = item.name) = some r)
    (hc : isChanged r (payloadOf partiesLoad item) = false) :
    syncItem partiesLoad c st item =
      (Verdict.skipped, st, some (effCache partiesLoad)) := by
  unfold syncItem lookupByName
  rw [getPartyId_run hC, hl, hf]
  simp [payloadOf] at hc ⊢
  simp [hc]

/-- update preserves the list of ids. -/
lemma update_ids (st : Store) (rid : Nat) (p : Payload) :
    (update st rid p).recs.map (fun r => r.id) = st.recs.map (fun r => r.id) := by
  unfold update
  rw [List.map_map]
  apply List.map_congr_left
  intro r _
  by_cases h : r.id = rid
  · simp [h, applyPayload]
  · simp [h]

/-- Well-formedness survives a create. -/
lemma WF_create {st : Store} (h : WF st) (p : Payload) : WF (create st p) := by
  obtain ⟨h1, h2⟩ := h
  constructor
  · have hm : (create st p).recs.map (fun r => r.id) =
        st.recs.map (fun r => r.id) ++ [st.nextId] := by
      simp [create, newRec]
    rw [hm]
    refine List.Nodup.append h1 (List.nodup_singleton _) ?_
    intro a ha hb
    obtain ⟨r, hr, hid⟩ := List.mem_map.mp ha
    have hb2 : a = st.nextId := by simpa using hb
    have := h2 r hr
    omega
  · intro r hr
    have : r ∈ st.recs ∨ r = newRec st.nextId p := by
      simpa [create] using hr
    rcases this with hr2 | rfl
    · have := h2 r hr2
      simp [create]
      omega
    · simp [create, newRec]

/-- Well-formedness survives an update. -/
lemma WF_update {st : Store} (h : WF st) (rid : Nat) (p : Payload) :
    WF (update st rid p) := by
  obtain ⟨h1, h2⟩ := h
  constructor
  · rw [update_ids]
    exact h1
  · intro r hr
    have : r ∈ (update st rid p).recs := hr
    unfold update at this
    obtain ⟨x, hx, hgx⟩ := List.mem_map.mp this
    have hid : r.id = x.id := by
      by_cases hc : x.id = rid
      · rw [← hgx]
        simp [hc, applyPayload]
      · rw [← hgx]
        simp [hc]
    have := h2 x hx
    simp only [update]
    omega

/-- The injected-failure flags survive a create. -/
lemma create_flags (st : Store) (p : Payload) :
    (create st p).lookupErr = st.lookupErr ∧ (create st p).writeErr = st.writeErr :=
  ⟨rfl, rfl⟩

/-- The injected-failure flags survive an update. -/
lemma update_flags (st : Store) (rid : Nat) (p : Payload) :
    (update st rid p).lookupErr = st.lookupErr ∧
      (update st rid p).writeErr = st.writeErr :=
  ⟨rfl, rfl⟩

/-- A record freshly created from a payload matches it on every diffed
field. -/
lemma isChanged_newRec (n : Nat) (p : Payload) : isChanged (newRec n p) p = false := by
  simp [isChanged, newRec]

/-- A record that just received a payload matches it on every diffed
field. -/
lemma isChanged_applyPayload (r : Rec) (p : Payload) :
    isChanged (applyPayload r p) p = false := by
  simp [isChanged, applyPayload]

/-- Updating the first record carrying a name with a payload carrying that
same name commutes with every find?-by-name query: the queried record is
mapped through the update. -/
lemma find?_update {st : Store} {r : Rec} {nm0 : Value} {p : Payload}
    (hnd : (st.recs.map (fun x => x.id)).Nodup)
    (hf : st.recs.find? (fun x => x.name = nm0) = some r)
    (hpn : p.name = nm0) (nm : Value) :
    (update st r.id p).recs.find? (fun x => x.name = nm) =
      (st.recs.find? (fun x => x.name = nm)).map
        (fun x => if x.id = r.id then applyPayload x p else x) := by
  have hrmem : r ∈ st.recs := List.mem_of_find?_eq_some hf
  have hrname : r.name = nm0 := by
    have := List.find?_some hf
    simpa using this
  apply find?_map_congr
  intro x hx
  by_cases hid : x.id = r.id
  · have hxr : x = r :=
      nodup_key_unique (fun y => y.id) st.recs hnd x hx r hrmem hid
    subst hxr
    simp [hid, applyPayload, hpn, hrname]
  · simp [hid]

/-- One happy-path reconciliation step preserves well-formedness, the
injected-failure flags and the loaded cache, brings the processed item in
sync, and keeps in sync every item with a different name that already
was. -/
lemma step_invariant {partiesLoad : Except String (List PartyRecord)}
    {c : Option JsMap} {st : Store} (item : Item)
    (hWF : WF st) (hl : st.lookupErr = none) (hw : st.writeErr = false)
    (hC : CacheOK partiesLoad c) :
    WF (syncItem partiesLoad c st item).2.1 ∧
    (syncItem partiesLoad c st item).2.1.lookupErr = none ∧
    (syncItem partiesLoad c st item).2.1.writeErr = false ∧
    (syncItem partiesLoad c st item).2.2 = some (effCache partiesLoad) ∧
    Good partiesLoad (syncItem partiesLoad c st item).2.1 item ∧
    (∀ j : Item, j.name ≠ item.name → Good partiesLoad st j →
      Good partiesLoad (syncItem partiesLoad c st item).2.1 j) := by
  rcases hf : st.recs.find? (fun x => x.name = item.name) with _ | r
  · rw [syncItem_not_found hC hl hw hf]
    refine ⟨WF_create hWF _, by simp [create, hl], by simp [create, hw], rfl, ?_, ?_⟩
    · refine ⟨newRec st.nextId (payloadOf partiesLoad item), ?_,
        isChanged_newRec _ _⟩
      simp only [create, List.find?_append, hf, Option.none_or]
      apply List.find?_cons_of_pos
      simp [newRec, payloadOf, buildPayload]
    · intro j _ hG
      obtain ⟨rj, hfj, hcj⟩ := hG
      refine ⟨rj, ?_, hcj⟩
      simp only [create, List.find?_append, hfj]
      rfl
  · by_cases hc : isChanged r (payloadOf partiesLoad item) = true
    · rw [syncItem_found_changed hC hl hw hf hc]
      have hnd := hWF.1
      have hpn : (payloadOf partiesLoad item).name = item.name := rfl
      refine ⟨WF_update hWF _ _, by simp [update, hl], by simp [update, hw], rfl, ?_, ?_⟩
      · refine ⟨applyPayload r (payloadOf partiesLoad item), ?_,
          isChanged_applyPayload _ _⟩
        rw [find?_update hnd hf hpn item.name, hf]
        simp
      · intro j hne hG
        obtain ⟨rj, hfj, hcj⟩ := hG
        have hrjne : ¬ rj.id = r.id := by
          intro he
          have hrj : rj ∈ st.recs := List.mem_of_find?_eq_some hfj
          have hr : r ∈ st.recs := List.mem_of_find?_eq_some hf
          have heq : rj = r :=
            nodup_key_unique (fun y => y.id) st.recs hnd rj hrj r hr he
          have h1 : rj.name = j.name := by simpa using List.find?_some hfj
          have h2 : r.name = item.name := by simpa using List.find?_some hf
          rw [heq, h2] at h1
          exact hne h1.symm
        refine ⟨rj, ?_, hcj⟩
        rw [find?_update hnd hf hpn j.name, hfj]
        simp [hrjne]
    · have hc2 : isChanged r (payloadOf partiesLoad item) = false := by
        simpa using hc
      rw [syncItem_found_same hC hl hf hc2]
      exact ⟨hWF, hl, hw, rfl, ⟨r, hf, hc2⟩, fun j _ hG => hG⟩

/-- A happy-path batch run preserves the invariants, keeps every
previously in-sync item in sync, and brings every processed item in sync
(item names pairwise distinct). -/
lemma runFrom_good (partiesLoad : Except String (List PartyRecord)) :
    ∀ (items : List Item) (stats : Stats) (st : Store) (c : Option JsMap)
      (prev : List Item),
      WF st → st.lookupErr = none → st.writeErr = false →
      CacheOK partiesLoad c →
      (items.map (fun i => i.name)).Nodup →
      (∀ j ∈ prev, ∀ i ∈ items, j.name ≠ i.name) →
      (∀ j ∈ prev, Good partiesLoad st j) →
      WF (runFrom partiesLoad stats st c items).2.1 ∧
      (runFrom partiesLoad stats st c items).2.1.lookupErr = none ∧
      (runFrom partiesLoad stats st c items).2.1.writeErr = false ∧
      (∀ j ∈ prev, Good partiesLoad (runFrom partiesLoad stats st c items).2.1 j) ∧
      (∀ i ∈ items, Good partiesLoad (runFrom partiesLoad stats st c items).2.1 i) := by
  intro items
  induction items with
  | nil =>
      intro stats st c prev hWF hl hw _ _ _ hprev
      exact ⟨hWF, hl, hw, hprev, by intro i hi; cases hi⟩
  | cons item rest ih =>
      intro stats st c prev hWF hl hw hC hnd hdisj hprev
      have hstep := step_invariant item hWF hl hw hC
      obtain ⟨hWF1, hl1, hw1, hc1, hGself, hGpres⟩ := hstep
      have hnd2 : (rest.map (fun i => i.name)).Nodup := by
        rw [List.map_cons, List.nodup_cons] at hnd
        exact hnd.2
      have hname_not_in : ∀ i ∈ rest, item.name ≠ i.name := by
        rw [List.map_cons, List.nodup_cons] at hnd
        intro i hi he
        exact hnd.1 (he ▸ List.mem_map.mpr ⟨i, hi, rfl⟩)
      have hdisj2 : ∀ j ∈ prev ++ [item], ∀ i ∈ rest, j.name ≠ i.name := by
        intro j hj i hi
        rcases List.mem_append.mp hj with hj2 | hj2
        · exact hdisj j hj2 i (List.mem_cons_of_mem item hi)
        · have : j = item := by simpa using hj2
          rw [this]
          exact hname_not_in i hi
      have hprev2 : ∀ j ∈ prev ++ [item],
          Good partiesLoad (syncItem partiesLoad c st item).2.1 j := by
        intro j hj
        rcases List.mem_append.mp hj with hj2 | hj2
        · exact hGpres j (hdisj j hj2 item (List.mem_cons_self item rest))
            (hprev j hj2)
        · have : j = item := by simpa using hj2
          rw [this]
          exact hGself
      have hCok : CacheOK partiesLoad (syncItem partiesLoad c st item).2.2 :=
        Or.inr hc1
      have hrec := ih (stats.bump (syncItem partiesLoad c st item).1)
        (syncItem partiesLoad c st item).2.1
        (syncItem partiesLoad c st item).2.2 (prev ++ [item])
        hWF1 hl1 hw1 hCok hnd2 hdisj2 hprev2
      obtain ⟨hWF2, hl2, hw2, hmix, hrest⟩ := hrec
      have hrw : runFrom partiesLoad stats st c (item :: rest) =
          runFrom partiesLoad (stats.bump (syncItem partiesLoad c st item).1)
            (syncItem partiesLoad c st item).2.1
            (syncItem partiesLoad c st item).2.2 rest := rfl
      rw [hrw]
      refine ⟨hWF2, hl2, hw2, ?_, ?_⟩
      · intro j hj
        exact hmix j (List.mem_append.mpr (Or.inl hj))
      · intro i hi
        rcases List.mem_cons.mp hi with rfl | hi2
        · exact hmix i (List.mem_append.mpr (Or.inr (by simp)))
        · exact hrest i hi2

/-- A batch in which every item is already in sync is fully skipped: the
counters record one skip per item and the store is untouched. -/
lemma runFrom_skips (partiesLoad : Except String (List PartyRecord)) :
    ∀ (items : List Item) (stats : Stats) (st : Store) (c : Option JsMap),
      st.lookupErr = none → CacheOK partiesLoad c →
      (∀ i ∈ items, Good partiesLoad st i) →
      (runFrom partiesLoad stats st c items).1.created = stats.created ∧
      (runFrom partiesLoad stats st c items).1.updated = stats.updated ∧
      (runFrom partiesLoad stats st c items).1.failed = stats.failed ∧
      (runFrom partiesLoad stats st c items).1.skipped =
        stats.skipped + items.length ∧
      (runFrom partiesLoad stats st c items).2.1 = st := by
  intro items
  induction items with
  | nil => intro stats st c _ _ _; exact ⟨rfl, rfl, rfl, rfl, rfl⟩
  | cons item rest ih =>
      intro stats st c hl hC hG
      obtain ⟨r, hf, hc⟩ := hG item (List.mem_cons_self item rest)
      have hstep := syncItem_found_same hC hl hf hc
      have hrw : runFrom partiesLoad stats st c (item :: rest) =
          runFrom partiesLoad (stats.bump Verdict.skipped) st
            (some (effCache partiesLoad)) rest := by
        show runFrom partiesLoad (stats.bump (syncItem partiesLoad c st item).1)
          (syncItem partiesLoad c st item).2.1
          (syncItem partiesLoad c st item).2.2 rest = _
        rw [hstep]
      rw [hrw]
      have hrec := ih (stats.bump Verdict.skipped) st (some (effCache partiesLoad))
        hl (Or.inr rfl)
        (fun i hi => hG i (List.mem_cons_of_mem item hi))
      obtain ⟨h1, h2, h3, h4, h5⟩ := hrec
      refine ⟨by rw [h1]; rfl, by rw [h2]; rfl, by rw [h3]; rfl, ?_, h5⟩
      rw [h4]
      simp [Stats.bump]
      omega

end Partylist

namespace Parties

/-- Store well-formedness: store-assigned ids are distinct and below the
next fresh id. -/
def WF (st : Store) : Prop :=
  (st.recs.map (fun r => r.id)).Nodup ∧ ∀ r ∈ st.recs, r.id < st.nextId

/-- Some stored record carries the item's name. -/
def Found (st : Store) (item : Item) : Prop :=
  ∃ r, st.recs.find? (fun x => x.name = item.name) = some r

/-- Characterization of syncItem on the happy path when no record carries
the item's name. -/
lemma syncItemAbsent {st : Store} {item : Item}
    (hl : st.lookupErr = none) (hw : st.writeErr = false)
    (hf : st.recs.find? (fun x => x.name = item.name) = none) :
    syncItem st item = (Verdict.created, create st (buildPayload item)) := by
  unfold syncItem lookupByName
  rw [hl, hf]
  simp [hw]

/-- Characterization of syncItem on the happy path when a record carries
the item's name: it updates unconditionally. -/
lemma syncItem_found {st : Store} {item : Item} {r : Rec}
    (hl : st.lookupErr = none) (hw : st.writeErr = false)
    (hf : st.recs.find? (fun x => x.name = item.name) = some r) :
    syncItem st item = (Verdict.updated, update st r.id (buildPayload item)) := by
  unfold syncItem lookupByName
  rw [hl, hf]
  simp [hw]

/-- update preserves the list of ids. -/
lemma updateKeepsIds (st : Store) (rid : Nat) (p : Payload) :
    (update st rid p).recs.map (fun r => r.id) = st.recs.map (fun r => r.id) := by
  unfold update
  rw [List.map_map]
  apply List.map_congr_left
  intro r _
  by_cases h : r.id = rid
  · simp [h, applyPayload]
  · simp [h]

/-- Well-formedness survives a create. -/
lemma wfCreate {st : Store} (h : WF st) (p : Payload) : WF (create st p) := by
  obtain ⟨h1, h2⟩ := h
  constructor
  · have hm : (create st p).recs.map (fun r => r.id) =
        st.recs.map (fun r => r.id) ++ [st.nextId] := by
      simp [create, newRec]
    rw [hm]
    refine List.Nodup.append h1 (List.nodup_singleton _) ?_
    intro a ha hb
    obtain ⟨r, hr, hid⟩ := List.mem_map.mp ha
    have hb2 : a = st.nextId := by simpa using hb
    have := h2 r hr
    omega
  · intro r hr
    have : r ∈ st.recs ∨ r = newRec st.nextId p := by
      simpa [create] using hr
    rcases this with hr2 | rfl
    · have := h2 r hr2
      simp [create]
      omega
    · simp [create, newRec]

/-- Well-formedness survives an update. -/
lemma wfUpdate {st : Store} (h : WF st) (rid : Nat) (p : Payload) :
    WF (update st rid p) := by
  obtain ⟨h1, h2⟩ := h
  constructor
  · rw [updateKeepsIds]
    exact h1
  · intro r hr
    unfold update at hr
    obtain ⟨x, hx, hgx⟩ := List.mem_map.mp hr
    have hid : r.id = x.id := by
      by_cases hc : x.id = rid
      · rw [← hgx]
        simp [hc, applyPayload]
      · rw [← hgx]
        simp [hc]
    have := h2 x hx
    simp only [update]
    omega

/-- Updating the first record carrying a name with a payload carrying that
same name commutes with every find?-by-name query. -/
lemma findAfterUpdate {st : Store} {r : Rec} {nm0 : Value} {p : Payload}
    (hnd : (st.recs.map (fun x => x.id)).Nodup)
    (hf : st.recs.find? (fun x => x.name = nm0) = some r)
    (hpn : p.name = nm0) (nm : Value) :
    (update st r.id p).recs.find? (fun x => x.name = nm) =
      (st.recs.find? (fun x => x.name = nm)).map
        (fun x => if x.id = r.id then applyPayload x p else x) := by
  have hrmem : r ∈ st.recs := List.mem_of_find?_eq_some hf
  have hrname : r.name = nm0 := by
    have := List.find?_some hf
    simpa using this
  apply find?_map_congr
  intro x hx
  by_cases hid : x.id = r.id
  · have hxr : x = r :=
      nodup_key_unique (fun y => y.id) st.recs hnd x hx r hrmem hid
    subst hxr
    simp [hid, applyPayload, hpn, hrname]
  · simp [hid]

/-- One happy-path step of the parties reconciler preserves the
invariants, makes the processed item found, and keeps every found item
found. -/
lemma stepInvariant {st : Store} (item : Item)
    (hWF : WF st) (hl : st.lookupErr = none) (hw : st.writeErr = false) :
    WF (syncItem st item).2 ∧
    (syncItem st item).2.lookupErr = none ∧
    (syncItem st item).2.writeErr = false ∧
    Found (syncItem st item).2 item ∧
    (∀ j : Item, Found st j → Found (syncItem st item).2 j) := by
  rcases hf : st.recs.find? (fun x => x.name = item.name) with _ | r
  · rw [syncItemAbsent hl hw hf]
    refine ⟨wfCreate hWF _, by simp [create, hl], by simp [create, hw], ?_, ?_⟩
    · refine ⟨newRec st.nextId (buildPayload item), ?_⟩
      simp only [create, List.find?_append, hf, Option.none_or]
      apply List.find?_cons_of_pos
      simp [newRec, buildPayload]
    · intro j hG
      obtain ⟨rj, hfj⟩ := hG
      refine ⟨rj, ?_⟩
      simp only [create, List.find?_append, hfj]
      rfl
  · rw [syncItem_found hl hw hf]
    have hnd := hWF.1
    have hpn : (buildPayload item).name = item.name := rfl
    refine ⟨wfUpdate hWF _ _, by simp [update, hl], by simp [update, hw], ?_, ?_⟩
    · refine ⟨if r.id = r.id then applyPayload r (buildPayload item) else r, ?_⟩
      rw [findAfterUpdate hnd hf hpn item.name, hf]
      rfl
    · intro j hG
      obtain ⟨rj, hfj⟩ := hG
      refine ⟨if rj.id = r.id then applyPayload rj (buildPayload item) else rj, ?_⟩
      rw [findAfterUpdate hnd hf hpn j.name, hfj]
      rfl

/-- A happy-path parties batch run preserves the invariants and makes
every processed item found (items previously found stay found). -/
lemma runFrom_found :
    ∀ (items : List Item) (stats : PStats) (st : Store) (prev : List Item),
      WF st → st.lookupErr = none → st.writeErr = false →
      (∀ j ∈ prev, Found st j) →
      WF (runFrom stats st items).2 ∧
      (runFrom stats st items).2.lookupErr = none ∧
      (runFrom stats st items).2.writeErr = false ∧
      (∀ j ∈ prev, Found (runFrom stats st items).2 j) ∧
      (∀ i ∈ items, Found (runFrom stats st items).2 i) := by
  intro items
  induction items with
  | nil =>
      intro stats st prev hWF hl hw hprev
      exact ⟨hWF, hl, hw, hprev, by intro i hi; cases hi⟩
  | cons item rest ih =>
      intro stats st prev hWF hl hw hprev
      obtain ⟨hWF1, hl1, hw1, hFself, hFpres⟩ := stepInvariant item hWF hl hw
      have hprev2 : ∀ j ∈ prev ++ [item], Found (syncItem st item).2 j := by
        intro j hj
        rcases List.mem_append.mp hj with hj2 | hj2
        · exact hFpres j (hprev j hj2)
        · have : j = item := by simpa using hj2
          rw [this]
          exact hFself
      have hrec := ih (tally stats (syncItem st item).1) (syncItem st item).2
        (prev ++ [item]) hWF1 hl1 hw1 hprev2
      obtain ⟨hWF2, hl2, hw2, hmix, hrest⟩ := hrec
      have hrw : runFrom stats st (item :: rest) =
          runFrom (tally stats (syncItem st item).1) (syncItem st item).2 rest := rfl
      rw [hrw]
      refine ⟨hWF2, hl2, hw2, ?_, ?_⟩
      · intro j hj
        exact hmix j (List.mem_append.mpr (Or.inl hj))
      · intro i hi
        rcases List.mem_cons.mp hi with rfl | hi2
        · exact hmix i (List.mem_append.mpr (Or.inr (by simp)))
        · exact hrest i hi2

/-- A happy-path parties batch in which every item is already found is
fully updated: the run reports one update per item and no creates and no
failures. -/
lemma runFrom_updates :
    ∀ (items : List Item) (stats : PStats) (st : Store),
      WF st → st.lookupErr = none → st.writeErr = false →
      (∀ i ∈ items, Found st i) →
      (runFrom stats st items).1.created = stats.created ∧
      (runFrom stats st items).1.failed = stats.failed ∧
      (runFrom stats st items).1.updated = stats.updated + items.length := by
  intro items
  induction items with
  | nil => intro stats st _ _ _ _; exact ⟨rfl, rfl, rfl⟩
  | cons item rest ih =>
      intro stats st hWF hl hw hG
      obtain ⟨r, hf⟩ := hG item (List.mem_cons_self item rest)
      have hstep := syncItem_found hl hw hf
      obtain ⟨hWF1, hl1, hw1, _, hFpres⟩ := stepInvariant item hWF hl hw
      rw [hstep] at hWF1 hl1 hw1 hFpres
      have hG2 : ∀ i ∈ rest, Found (update st r.id (buildPayload item)) i := by
        intro i hi
        exact hFpres i (hG i (List.mem_cons_of_mem item hi))
      have hrw : runFrom stats st (item :: rest) =
          runFrom (tally stats Verdict.updated)
            (update st r.id (buildPayload item)) rest := by
        show runFrom (tally stats (syncItem st item).1) (syncItem st item).2 rest = _
        rw [hstep]
      rw [hrw]
      have hrec := ih (tally stats Verdict.updated)
        (update st r.id (buildPayload item)) hWF1 hl1 hw1 hG2
      obtain ⟨h1, h2, h3⟩ := hrec
      refine ⟨by rw [h1]; rfl, by rw [h2]; rfl, ?_⟩
      rw [h3]
      simp [tally]
      omega

end Parties

/-- C1 (amended): idempotence of a second run on an unchanged source and
the store state the first run produced.  For the partylist reconciler —
given a well-formed store on the happy path and pairwise-distinct item
names — the second run reports no creates, no updates and no failures,
skips every item, and leaves the store exactly as the first run left it.
The parties reconciler has no change detection: its second run still
reports no creates and no failures, but counts every item updated (it
rewrites each record with the same values) instead of skipping. -/
theorem idempotence_amended :
    (∀ (partiesLoad : Except String (List PartyRecord))
        (items : List Partylist.Item) (st : Partylist.Store),
        Partylist.WF st → st.lookupErr = none → st.writeErr = false →
        (items.map (fun i => i.name)).Nodup →
        (Partylist.run partiesLoad
          (Partylist.run partiesLoad st items).2.1 items).1.created = 0 ∧
        (Partylist.run partiesLoad
          (Partylist.run partiesLoad st items).2.1 items).1.updated = 0 ∧
        (Partylist.run partiesLoad
          (Partylist.run partiesLoad st items).2.1 items).1.failed = 0 ∧
        (Partylist.run partiesLoad
          (Partylist.run partiesLoad st items).2.1 items).1.skipped = items.length ∧
        (Partylist.run partiesLoad
          (Partylist.run partiesLoad st items).2.1 items).2.1 =
          (Partylist.run partiesLoad st items).2.1) ∧
    (∀ (items : List Parties.Item) (st : Parties.Store),
        Parties.WF st → st.lookupErr = none → st.writeErr = false →
        (Parties.run (Parties.run st items).2 items).1.created = 0 ∧
        (Parties.run (Parties.run st items).2 items).1.failed = 0 ∧
        (Parties.run (Parties.run st items).2 items).1.updated = items.length) := by
  constructor
  · intro partiesLoad items st hWF hl hw hnd
    have h1 := Partylist.runFrom_good partiesLoad items ⟨0, 0, 0, 0⟩ st none []
      hWF hl hw (Or.inl rfl) hnd (by intro j hj; cases hj) (by intro j hj; cases hj)
    obtain ⟨hWF1, hl1, hw1, _, hGood⟩ := h1
    have h2 := Partylist.runFrom_skips partiesLoad items ⟨0, 0, 0, 0⟩
      (Partylist.runFrom partiesLoad ⟨0, 0, 0, 0⟩ st none items).2.1 none
      hl1 (Or.inl rfl) hGood
    obtain ⟨h2a, h2b, h2c, h2d, h2e⟩ := h2
    refine ⟨h2a, h2b, h2c, ?_, h2e⟩
    unfold Partylist.run
    rw [h2d]
    simp
  · intro items st hWF hl hw
    have h1 := Parties.runFrom_found items ⟨0, 0, 0⟩ st []
      hWF hl hw (by intro j hj; cases hj)
    obtain ⟨hWF1, hl1, hw1, _, hFound⟩ := h1
    have h2 := Parties.runFrom_updates items ⟨0, 0, 0⟩
      (Parties.runFrom ⟨0, 0, 0⟩ st items).2 hWF1 hl1 hw1 hFound
    obtain ⟨h2a, h2b, h2c⟩ := h2
    refine ⟨h2a, h2b, ?_⟩
    unfold Parties.run
    rw [h2c]
    simp

/-- C1 witness: on an empty store, one partylist item is created by the
first run and skipped by the second, while one parties item is created by
the first run and counted updated by the second. -/
theorem idempotence_amended_witness :
    (Partylist.run (Except.ok [])
      (Partylist.run (Except.ok []) ⟨[], 0, none, false⟩
        [⟨Value.vstr "A", Value.vint 1, Value.vundef, Value.vundef,
          Value.vundef, Value.vnull, Value.vbool true, Value.vstr "P"⟩]).2.1
      [⟨Value.vstr "A", Value.vint 1, Value.vundef, Value.vundef,
        Value.vundef, Value.vnull, Value.vbool true, Value.vstr "P"⟩]).1.skipped = 1 ∧
    (Parties.run
      (Parties.run ⟨[], 0, none, false⟩
        [⟨Value.vstr "X", Value.vstr "X1", Value.vundef, Value.vundef,
          Value.vundef, Value.vint 5⟩]).2
      [⟨Value.vstr "X", Value.vstr "X1", Value.vundef, Value.vundef,
        Value.vundef, Value.vint 5⟩]).1.updated = 1 := by
  constructor
  · exact (idempotence_amended.1 (Except.ok [])
      [⟨Value.vstr "A", Value.vint 1, Value.vundef, Value.vundef,
        Value.vundef, Value.vnull, Value.vbool true, Value.vstr "P"⟩]
      ⟨[], 0, none, false⟩
      ⟨List.nodup_nil, by intro r hr; cases hr⟩ rfl rfl
      (by simp)).2.2.2.1
  · exact (idempotence_amended.2
      [⟨Value.vstr "X", Value.vstr "X1", Value.vundef, Value.vundef,
        Value.vundef, Value.vint 5⟩]
      ⟨[], 0, none, false⟩
      ⟨List.nodup_nil, by intro r hr; cases hr⟩ rfl rfl).2.2

end ElectionSync
